import Mathlib

/-!
Shallow embedding of `cogstat/cogstat_hyp_test.py` and verification of the
behavioural claims about its hypothesis-test dispatcher.

Modelling conventions:

* Python floats are modelled as rationals (`ℚ`); a missing value (`NaN` cell)
  is `none` in `Option ℚ`.  Rational division by zero is `0` in Lean while
  float division by zero is `inf`/`nan` in Python; every theorem that depends
  on a division carries explicit nonzero hypotheses.
* A pandas data frame is a header of column labels plus rectangular rows
  (`Pdf`).  Grouping columns are rational-valued in this model.
* The external numeric routines (scipy / statsmodels / scikit_posthocs and
  `cogstat_stat_num`) are the spec's opaque provider boundary: each embedded
  function takes its providers as function arguments returning
  `Except String _`, where `Except.error` models a raised Python exception.
* A test function's outcome is `Except PyErr Report`: `Except.error` models an
  exception propagating to the caller and `Except.ok` a returned text.  The
  `Report` is the returned text reduced to its data content; translated
  phrases, significant-digit formatting and html are the spec's formatting
  boundary (`cs_util.print_p`, `cs_util.precision`,
  `cs_stat._format_html_table`) and are not modelled.
* Each embedded function also returns the list of provider invocations it
  performed (`List Call`), mirroring the source's control flow, so that
  "no numeric routine was invoked" is expressible.
-/

/-- Python strings, where their character structure matters, are modelled as
lists of characters. -/
abbrev PyStr := List Char

/-- Embedding of Python `str.split(sep)` for a one-character separator: split
at every occurrence, keeping empty pieces (`"a_b".split('_') == ["a", "b"]`,
`"".split('_') == [""]`). -/
def splitSep (sep : Char) : PyStr → List PyStr
  | [] => [[]]
  | c :: rest =>
    if c = sep then [] :: splitSep sep rest
    else
      match splitSep sep rest with
      | [] => [[c]]
      | p :: ps => (c :: p) :: ps

/-- Embedding of Python `str(i)` for a natural number. -/
def natChars (n : ℕ) : PyStr := Nat.toDigits 10 n

/-- A data-frame cell: `none` models a missing value. -/
abbrev Cell := Option ℚ

/-- A pandas data frame: named columns over rectangular rows. -/
structure Pdf where
  header : List String
  rows : List (List Cell)
deriving DecidableEq

/-- Position of a column label in the header (pandas label lookup); `none`
models a `KeyError`. -/
def colIdx (pdf : Pdf) (name : String) : Option ℕ :=
  pdf.header.findIdx? (fun s => s = name)

/-- Embedding of `pdf[name]`: the cells of the named column. -/
def getCol (pdf : Pdf) (name : String) : Option (List Cell) :=
  (colIdx pdf name).map (fun i => pdf.rows.map (fun r => r.getD i none))

/-- Embedding of `pdf[var_names]`: the rows restricted to the selected
columns, in selection order; `none` when some column is missing. -/
def selectRows (pdf : Pdf) (names : List String) : Option (List (List Cell)) :=
  (names.mapM (colIdx pdf)).map
    (fun idxs => pdf.rows.map (fun r => idxs.map (fun i => r.getD i none)))

/-- Embedding of `.dropna()` on a selected frame: listwise deletion of rows
with any missing cell. -/
def dropnaRows (rows : List (List Cell)) : List (List ℚ) :=
  rows.filterMap (fun r => r.mapM id)

/-- Embedding of `.dropna()` on a selected frame when the surviving pandas
index labels (the original row positions) are needed afterwards. -/
def dropnaIdx (rows : List (List Cell)) : List (ℕ × List ℚ) :=
  rows.enum.filterMap (fun p => (p.2.mapM id).map (fun v => (p.1, v)))

/-- Embedding of `series.dropna()` on one column. -/
def dropnaCol (col : List Cell) : List ℚ := col.filterMap id

/-- Distinct values of a list in order of first appearance. -/
def uniqueVals (l : List ℚ) : List ℚ :=
  l.foldl (fun acc x => if x ∈ acc then acc else acc ++ [x]) []

/-- Modelled from the spec: `cs_stat._split_into_groups` is code of this
repository that is not under `src/` (only its callers are).  Spec section 3
says a grouping column's "distinct values partition rows into groups", and
section 4.2 says the dependent variable is split "into per-group arrays via
the grouping column".  The model returns the distinct group values present in
the data, in order of first appearance, together with, for each level, the
dependent-variable cells of that level's rows (missing values kept: the
callers drop them per group afterwards).  `none` models the `KeyError` of a
missing column. -/
def splitIntoGroups (pdf : Pdf) (varName groupName : String) :
    Option (List ℚ × List (List Cell)) :=
  match colIdx pdf varName, colIdx pdf groupName with
  | some vi, some gi =>
    let pairs := pdf.rows.map (fun r => (r.getD vi none, r.getD gi none))
    let levels := uniqueVals (pairs.filterMap (fun p => p.2))
    some (levels,
      levels.map (fun l => pairs.filterMap (fun p => if p.2 = some l then some p.1 else none)))
  | _, _ => none

/-- Embedding of `np.mean` on a list of rationals. -/
def npMean (xs : List ℚ) : ℚ := xs.sum / xs.length

/-- Sum of squared deviations from the mean,
`np.sum((np.mean(v) - v) ** 2)` in the source. -/
def sqDevSum (xs : List ℚ) : ℚ := (xs.map (fun x => (npMean xs - x) * (npMean xs - x))).sum

/-- Embedding of `np.std` applied to a pandas series: `np.std` delegates to
`Series.std(ddof=0)`, which skips missing values, so this is the population
standard deviation of the non-missing cells.  The square root is the opaque
numeric provider `sqrtFn`. -/
def npStd (sqrtFn : ℚ → ℚ) (col : List Cell) : ℚ :=
  sqrtFn (sqDevSum (dropnaCol col) / ((dropnaCol col).length : ℚ))

/-- One semantic piece of a returned text result. -/
inductive Item where
  /-- A formatted test-statistic line: test name, statistic value, reported
  degrees of freedom, optional reported sample size, p-value. -/
  | testRes (name : String) (stat : ℚ) (dfs : List ℚ) (n : Option ℕ) (p : ℚ)
  /-- A provider error message surfaced as result text (`str(e)`). -/
  | errText (name : String) (e : String)
  /-- A configuration-error message (wrong number of variables). -/
  | configMsg (msg : String)
  /-- Decision narrative: "Sphericity is violated. Using Greenhouse-Geisser
  correction." -/
  | decisionGG
  /-- Decision narrative: "Sphericity is not violated." -/
  | decisionNoGG
  /-- Decision narrative: "Comparing variables pairwise with the
  Holm-Bonferroni correction:" -/
  | decisionPairwise
  /-- Decision narrative: "Groups differ. Post-hoc test of the means." -/
  | decisionGroupsDiffer
  /-- Decision narrative: "Results of Dunn's test (p values)." -/
  | decisionDunn
  /-- A mean difference with its confidence-interval bounds. -/
  | confInt (mdiff lo hi : ℚ)
  /-- A sensitivity power-analysis line. -/
  | power (v : ℚ)
  /-- A pairwise post-hoc table: rows of label, t, Holm-corrected p. -/
  | postHocT (rows : List (PyStr × ℚ × ℚ))
  /-- A Dunn post-hoc table of p-values. -/
  | dunnTable (tbl : List (List ℚ))
deriving DecidableEq

/-- A returned text result, reduced to its semantic pieces in text order. -/
abbrev Report := List Item

/-- A Python exception propagating out of a module function. -/
inductive PyErr where
  /-- A missing column label. -/
  | keyError
  /-- An out-of-range list index. -/
  | indexError
  /-- A failed tuple unpacking or a length mismatch. -/
  | valueError
  /-- An uncaught exception raised by an external numeric routine. -/
  | provider (e : String)
deriving DecidableEq

/-- One row of the long-format frame built in the multi-way path: subject
identifier (the original row index), the measured value, the synthesized
variable name, and the pieces of that name after splitting on `'_'` (the
factor columns of the long frame are these pieces in factor order). -/
structure LongRow where
  id : ℕ
  value : ℚ
  varLabel : PyStr
  tags : List PyStr
deriving DecidableEq

/-- A record of one invocation of an external numeric routine, with the data
passed to it. -/
inductive Call where
  | ttestRel (x y : List ℚ)
  | wilcoxonT (x y : List ℚ)
  | mcnemarT (a b : List Cell)
  | cochransQT (rows : List (List Cell))
  | rmAnovaNum (rows : List (List ℚ))
  | pairwiseT (rows : List (List ℚ))
  | anovaRM (rows : List LongRow)
  | friedmanT (cols : List (List ℚ))
  | leveneT (groups : List (List ℚ))
  | ttestInd (x y : List ℚ)
  | modifiedT (x : List Cell) (y : List ℚ)
  | slopeExt (nTrials : Option ℚ) (caseVar caseSe : Cell) (controlVar controlSe : List Cell)
  | welchT (x y : List ℚ)
  | mannwhitneyNew (x y : List ℚ)
  | mannwhitneyOld (x y : List ℚ)
  | olsAnova (rows : List (ℚ × ℚ × ℚ))
  | kruskalT (groups : List (List ℚ))
  | dunnT (pairs : List (Cell × ℚ))
deriving DecidableEq

deriving instance DecidableEq for Except

/-- Module-level flag `run_power_analysis = False`. -/
def run_power_analysis : Bool := false

/-- Embedding of `paired_t_test`.  `ttestRelProv` models `stats.ttest_rel`
and `powerProv` the sensitivity power-analysis provider (the guarding module
flag is `False`).  The arity check precedes any provider call. -/
def paired_t_test (ttestRelProv : List ℚ → List ℚ → Except String (ℚ × ℚ))
    (powerProv : ℕ → ℚ) (pdf : Pdf) (varNames : List String) :
    Except PyErr Report × List Call :=
  if varNames.length ≠ 2 then
    (Except.ok [Item.configMsg "Paired t-test requires two variables."], [])
  else
    match selectRows pdf varNames with
    | none => (Except.error PyErr.keyError, [])
    | some rows =>
      let vars := dropnaRows rows
      let powerItems := if run_power_analysis then [Item.power (powerProv vars.length)] else []
      let df : ℚ := (vars.length : ℚ) - 1
      let x := vars.map (fun r => r.getD 0 0)
      let y := vars.map (fun r => r.getD 1 0)
      match ttestRelProv x y with
      | Except.ok tp =>
        (Except.ok (powerItems ++ [Item.testRes "paired samples t-test" tp.1 [df] none tp.2]),
         [Call.ttestRel x y])
      | Except.error e => (Except.error (PyErr.provider e), [Call.ttestRel x y])

/-- Embedding of `paired_wilcox_test`.  `wilcoxonProv` models
`stats.wilcoxon`; no degrees of freedom are reported. -/
def paired_wilcox_test (wilcoxonProv : List ℚ → List ℚ → Except String (ℚ × ℚ))
    (pdf : Pdf) (varNames : List String) : Except PyErr Report × List Call :=
  if varNames.length ≠ 2 then
    (Except.ok [Item.configMsg "Paired Wilcoxon test requires two variables."], [])
  else
    match selectRows pdf varNames with
    | none => (Except.error PyErr.keyError, [])
    | some rows =>
      let vars := dropnaRows rows
      let x := vars.map (fun r => r.getD 0 0)
      let y := vars.map (fun r => r.getD 1 0)
      match wilcoxonProv x y with
      | Except.ok tp =>
        (Except.ok [Item.testRes "Wilcoxon signed-rank test" tp.1 [] none tp.2],
         [Call.wilcoxonT x y])
      | Except.error e => (Except.error (PyErr.provider e), [Call.wilcoxonT x y])

/-- Embedding of `mcnemar_test`: there is no arity validation and no
missing-value handling; `var_names[0]` and `var_names[1]` are list indexings
that raise `IndexError` when out of range, the column lookups may raise
`KeyError`, and a provider exception is not caught. -/
def mcnemar_test (mcnemarProv : List Cell → List Cell → Except String (ℚ × ℚ))
    (pdf : Pdf) (varNames : List String) : Except PyErr Report × List Call :=
  match varNames.get? 0 with
  | none => (Except.error PyErr.indexError, [])
  | some n0 =>
    match getCol pdf n0 with
    | none => (Except.error PyErr.keyError, [])
    | some c0 =>
      match varNames.get? 1 with
      | none => (Except.error PyErr.indexError, [])
      | some n1 =>
        match getCol pdf n1 with
        | none => (Except.error PyErr.keyError, [])
        | some c1 =>
          match mcnemarProv c0 c1 with
          | Except.ok cp =>
            (Except.ok [Item.testRes "McNemar test" cp.1 [1] (some c0.length) cp.2],
             [Call.mcnemarT c0 c1])
          | Except.error e => (Except.error (PyErr.provider e), [Call.mcnemarT c0 c1])

/-- Embedding of `cochran_q_test`: no arity validation and no missing-value
handling; the selected frame goes to the provider as is, and `var_names[0]`
is indexed only afterwards for the reported sample size. -/
def cochran_q_test (cochransQProv : List (List Cell) → Except String (ℚ × ℚ))
    (pdf : Pdf) (varNames : List String) : Except PyErr Report × List Call :=
  match selectRows pdf varNames with
  | none => (Except.error PyErr.keyError, [])
  | some rows =>
    match cochransQProv rows with
    | Except.error e => (Except.error (PyErr.provider e), [Call.cochransQT rows])
    | Except.ok qp =>
      match varNames.get? 0 with
      | none => (Except.error PyErr.indexError, [Call.cochransQT rows])
      | some n0 =>
        match getCol pdf n0 with
        | none => (Except.error PyErr.keyError, [Call.cochransQT rows])
        | some c0 =>
          (Except.ok [Item.testRes "Cochran Q test" qp.1 [(varNames.length : ℚ) - 1]
              (some c0.length) qp.2],
           [Call.cochransQT rows])

/-- Result bundle of the provider `cs_stat_num.repeated_measures_anova`
(out of scope per spec section 1): uncorrected numerator and denominator
degrees of freedom, F, the uncorrected p, Mauchly's W and its p, and the
first row of the correction table, namely the Greenhouse-Geisser epsilon
(`corr_table[0, 0]`) and the corrected p (`corr_table[0, 1]`). -/
structure RMNums where
  dfn : ℚ
  dfd : ℚ
  f : ℚ
  pf : ℚ
  w : ℚ
  pw : ℚ
  eps : ℚ
  pGG : ℚ
deriving DecidableEq

/-- Ordering used to model `.sort_index()` on the pairwise table: Python
string comparison, code point by code point. -/
def pyStrLe : PyStr → PyStr → Bool
  | [], _ => true
  | _ :: _, [] => false
  | a :: as, b :: bs => if a.val < b.val then true else if b.val < a.val then false else pyStrLe as bs

/-- Insertion step of the label sort of the pairwise post-hoc table. -/
def insertByLabel (x : PyStr × ℚ × ℚ) : List (PyStr × ℚ × ℚ) → List (PyStr × ℚ × ℚ)
  | [] => [x]
  | y :: ys => if pyStrLe x.1 y.1 then x :: y :: ys else y :: insertByLabel x ys

/-- Embedding of `.sort_index()` on the pairwise post-hoc table. -/
def sortByLabel (l : List (PyStr × ℚ × ℚ)) : List (PyStr × ℚ × ℚ) :=
  l.foldr insertByLabel []

/-- One factor's step of the synthesized-name fold of the multi-way path:
the source's list comprehension
`[previous_var_name + '_' + factor[0] + str(i) for previous_var_name in
temp_var_names for i in range(factor[1])]`, with the previous name in the
outer loop. -/
def tempStep (acc : List PyStr) (f : PyStr × ℕ) : List PyStr :=
  acc.flatMap (fun prev => (List.range f.2).map (fun i => prev ++ '_' :: (f.1 ++ natChars i)))

/-- Embedding of the synthesized temporary variable names of the multi-way
path: the fold of `tempStep` over the factors starting from `['']`, and the
final `[1:]` dropping the leading separator. -/
def tempVarNames (factors : List (PyStr × ℕ)) : List PyStr :=
  (factors.foldl tempStep [[]]).map (fun s => s.drop 1)

/-- Embedding of the wide-to-long reshaping of the multi-way path: renaming
the selected columns to the synthesized names, `pd.melt` with the original
row index as `ID` (one block of rows per value variable, in column order),
and the split of the `variable` column on `'_'` into the factor columns. -/
def buildLongTable (factors : List (PyStr × ℕ)) (data : List (ℕ × List ℚ)) : List LongRow :=
  (tempVarNames factors).enum.flatMap
    (fun kn => data.map (fun r => ⟨r.1, r.2.getD kn.1 0, kn.2, splitSep '_' kn.2⟩))

/-- One-way branch of `repeated_measures_anova` (no factors): Mauchly's test
result, the sphericity decision choosing the Greenhouse-Geisser correction
exactly when Mauchly's p < 0.05, the ANOVA line with the chosen degrees of
freedom and p, and the Holm-Bonferroni pairwise post-hoc gated on the chosen
p.  `rmProv` models `cs_stat_num.repeated_measures_anova` and `pairProv`
models `cs_stat_num.pairwise_ttest` (rows of label, t, Holm-corrected p,
sorted by label as `.sort_index()`). -/
def rm_oneway
    (rmProv : List (List ℚ) → Except String RMNums)
    (pairProv : List (List ℚ) → Except String (List (PyStr × ℚ × ℚ)))
    (pdf : Pdf) (varNames : List String) : Except PyErr Report × List Call :=
  match selectRows pdf varNames with
  | none => (Except.error PyErr.keyError, [])
  | some rows =>
    let data := dropnaRows rows
    match rmProv data with
    | Except.error e => (Except.error (PyErr.provider e), [Call.rmAnovaNum data])
    | Except.ok r =>
      let p := if r.pw < 1/20 then r.pGG else r.pf
      let branchItems :=
        if r.pw < 1/20 then
          [Item.testRes "Mauchly sphericity test" r.w [] none r.pw,
           Item.decisionGG,
           Item.testRes "Repeated measures ANOVA" r.f [r.dfn * r.eps, r.dfd * r.eps] none r.pGG]
        else
          [Item.testRes "Mauchly sphericity test" r.w [] none r.pw,
           Item.decisionNoGG,
           Item.testRes "Repeated measures ANOVA" r.f [r.dfn, r.dfd] none r.pf]
      if p < 1/20 then
        match pairProv data with
        | Except.error e =>
          (Except.error (PyErr.provider e), [Call.rmAnovaNum data, Call.pairwiseT data])
        | Except.ok pht =>
          (Except.ok (branchItems ++
             [Item.decisionPairwise,
              Item.postHocT (sortByLabel pht)]),
           [Call.rmAnovaNum data, Call.pairwiseT data])
      else (Except.ok branchItems, [Call.rmAnovaNum data])

/-- Multi-way branch of `repeated_measures_anova`: reshape to long format via
the synthesized `'_'`-separated column names and delegate to `AnovaRM`.
`anovaRMProv` models `AnovaRM(...).fit()` (rows of term label, numerator df,
denominator df, F, p; the phrasing around a term label is the formatting
boundary). -/
def rm_multiway
    (anovaRMProv : List LongRow → Except String (List (PyStr × ℚ × ℚ × ℚ × ℚ)))
    (pdf : Pdf) (varNames : List String) (factors : List (PyStr × ℕ)) :
    Except PyErr Report × List Call :=
  match selectRows pdf varNames with
  | none => (Except.error PyErr.keyError, [])
  | some rows =>
    let data := dropnaIdx rows
    if (tempVarNames factors).length ≠ varNames.length then
      -- `pdf_temp.columns = temp_var_names` raises when the level-count
      -- product does not match the number of selected columns
      (Except.error PyErr.valueError, [])
    else
      let long := buildLongTable factors data
      match anovaRMProv long with
      | Except.error e => (Except.error (PyErr.provider e), [Call.anovaRM long])
      | Except.ok table =>
        (Except.ok (table.map (fun row =>
           Item.testRes (String.mk row.1) row.2.2.2.1 [row.2.1, row.2.2.1] none row.2.2.2.2)),
         [Call.anovaRM long])

/-- Embedding of `repeated_measures_anova`: the one-way branch when `factors`
is empty, the multi-way branch otherwise.  There is no arity validation on
`var_names`. -/
def repeated_measures_anova
    (rmProv : List (List ℚ) → Except String RMNums)
    (pairProv : List (List ℚ) → Except String (List (PyStr × ℚ × ℚ)))
    (anovaRMProv : List LongRow → Except String (List (PyStr × ℚ × ℚ × ℚ × ℚ)))
    (pdf : Pdf) (varNames : List String) (factors : List (PyStr × ℕ)) :
    Except PyErr Report × List Call :=
  if factors.isEmpty then rm_oneway rmProv pairProv pdf varNames
  else rm_multiway anovaRMProv pdf varNames factors

/-- Embedding of `friedman_test`.  `friedmanProv` models
`stats.friedmanchisquare`, fed the columns of the listwise-complete frame. -/
def friedman_test (friedmanProv : List (List ℚ) → Except String (ℚ × ℚ))
    (pdf : Pdf) (varNames : List String) : Except PyErr Report × List Call :=
  if varNames.length < 2 then
    (Except.ok [Item.configMsg "Friedman test requires at least two variables."], [])
  else
    match selectRows pdf varNames with
    | none => (Except.error PyErr.keyError, [])
    | some rows =>
      let vars := dropnaRows rows
      let cols := (List.range varNames.length).map (fun k => vars.map (fun r => r.getD k 0))
      match friedmanProv cols with
      | Except.error e => (Except.error (PyErr.provider e), [Call.friedmanT cols])
      | Except.ok cp =>
        (Except.ok [Item.testRes "Friedman test" cp.1 [(varNames.length : ℚ) - 1]
            (some vars.length) cp.2],
         [Call.friedmanT cols])

/-- Embedding of `levene_test`.  Unlike the other functions it returns the
p-value alongside the text.  Values are dropped per group before the provider
call; a provider exception is not caught. -/
def levene_test (leveneProv : List (List ℚ) → Except String (ℚ × ℚ))
    (pdf : Pdf) (varName groupName : String) :
    Except PyErr (ℚ × Report) × List Call :=
  match splitIntoGroups pdf varName groupName with
  | none => (Except.error PyErr.keyError, [])
  | some gs =>
    let varS := gs.2.map dropnaCol
    match leveneProv varS with
    | Except.error e => (Except.error (PyErr.provider e), [Call.leveneT varS])
    | Except.ok wp =>
      (Except.ok (wp.2, [Item.testRes "Levene test" wp.1 [] none wp.2]), [Call.leveneT varS])

/-- Embedding of `independent_t_test`.  `ttestIndProv` models
`statsmodels ttest_ind` returning (t, p, df); `tppf` models
`stats.t.ppf(1 - 0.05 / 2, df)` as a function of df; `sqrtFn` models
`np.sqrt`; `powerProv` the power-analysis provider (dead, the module flag is
`False`).  The grouping column must yield exactly two groups (the source
unpacks `[var1, var2]`); missing values are dropped per group, and every
derived quantity below uses the dropped samples. -/
def independent_t_test
    (ttestIndProv : List ℚ → List ℚ → Except String (ℚ × ℚ × ℚ))
    (tppf : ℚ → ℚ) (sqrtFn : ℚ → ℚ) (powerProv : ℕ → ℕ → ℚ)
    (pdf : Pdf) (varName groupingName : String) :
    Except PyErr Report × List Call :=
  match splitIntoGroups pdf varName groupingName with
  | none => (Except.error PyErr.keyError, [])
  | some gs =>
    match gs.2 with
    | [c1, c2] =>
      let var1 := dropnaCol c1
      let var2 := dropnaCol c2
      match ttestIndProv var1 var2 with
      | Except.error e => (Except.error (PyErr.provider e), [Call.ttestInd var1 var2])
      | Except.ok tpd =>
        let df := tpd.2.2
        let mean_diff := npMean var1 - npMean var2
        let sse := sqDevSum var1 + sqDevSum var2
        let mse := sse / df
        let nh : ℚ := 2 / (1 / (var1.length : ℚ) + 1 / (var2.length : ℚ))
        let s_m1m2 := sqrtFn (2 * mse / nh)
        let t_cl := tppf df
        let lci := mean_diff - t_cl * s_m1m2
        let hci := mean_diff + t_cl * s_m1m2
        let powerItems :=
          if run_power_analysis then [Item.power (powerProv var1.length var2.length)] else []
        (Except.ok (powerItems ++
           [Item.confInt mean_diff lci hci,
            Item.testRes "independent samples t-test" tpd.1 [df] none tpd.2.1]),
         [Call.ttestInd var1 var2])
    | _ => (Except.error PyErr.valueError, [])

/-- Exception raised by `cs_stat_num.modified_t_test`: the source catches
`ValueError` and lets anything else propagate. -/
inductive SCErr where
  | valueErr
  | otherErr (e : String)
deriving DecidableEq

/-- Embedding of `single_case_task_extremity`.  Without a slope-SE variable
the case datum is the one-element group, kept as is, while the control group
is dropped of missing values; `modTProv` models
`cs_stat_num.modified_t_test` returning (t, p, df), and only its
`ValueError` is converted to a message.  With a slope-SE variable the case
value and SE are indexed out of their groups and everything goes to
`slopeProv`, modelling `cs_stat_num.slope_extremity_test` returning
(t, df, p, test name). -/
def single_case_task_extremity
    (modTProv : List Cell → List ℚ → Except SCErr (ℚ × ℚ × ℚ))
    (slopeProv : Option ℚ → Cell → Cell → List Cell → List Cell →
      Except String (ℚ × ℚ × ℚ × String))
    (pdf : Pdf) (varName groupingName : String) (seName : Option String)
    (nTrials : Option ℚ) : Except PyErr Report × List Call :=
  match splitIntoGroups pdf varName groupingName with
  | none => (Except.error PyErr.keyError, [])
  | some gs =>
    match gs.2 with
    | [c1, c2] =>
      match seName with
      | none =>
        let indData := if c1.length = 1 then c1 else c2
        let groupData := if c1.length = 1 then dropnaCol c2 else dropnaCol c1
        match modTProv indData groupData with
        | Except.ok tpd =>
          (Except.ok [Item.testRes "modified independent samples t-test" tpd.1 [tpd.2.2]
              none tpd.2.1],
           [Call.modifiedT indData groupData])
        | Except.error SCErr.valueErr =>
          (Except.ok [Item.configMsg "One of the groups should include only a single data."],
           [Call.modifiedT indData groupData])
        | Except.error (SCErr.otherErr e) =>
          (Except.error (PyErr.provider e), [Call.modifiedT indData groupData])
      | some seN =>
        match splitIntoGroups pdf seN groupingName with
        | none => (Except.error PyErr.keyError, [])
        | some ses =>
          match ses.2 with
          | [s1, s2] =>
            match (if c1.length = 1 then (c1.get? 0, s1.get? 0) else (c2.get? 0, s2.get? 0)) with
            | (some caseVar, some caseSe) =>
              let controlVar := if c1.length = 1 then c2 else c1
              let controlSe := if c1.length = 1 then s2 else s1
              match slopeProv nTrials caseVar caseSe controlVar controlSe with
              | Except.ok r =>
                (Except.ok [Item.testRes ("slope test with " ++ r.2.2.2) r.1 [r.2.1]
                    none r.2.2.1],
                 [Call.slopeExt nTrials caseVar caseSe controlVar controlSe])
              | Except.error e =>
                (Except.error (PyErr.provider e),
                 [Call.slopeExt nTrials caseVar caseSe controlVar controlSe])
            | _ => (Except.error PyErr.keyError, [])
          | _ => (Except.error PyErr.valueError, [])
    | _ => (Except.error PyErr.valueError, [])

/-- Embedding of `welch_t_test`.  The statistic comes from the provider fed
the per-group dropped samples, but the sample sizes `n1 = len(var1)`,
`n2 = len(var2)` and the standard deviations used for the degrees of freedom
are taken from the series before `dropna` (source lines 337-341). -/
def welch_t_test (welchProv : List ℚ → List ℚ → Except String (ℚ × ℚ))
    (sqrtFn : ℚ → ℚ) (pdf : Pdf) (varName groupingName : String) :
    Except PyErr Report × List Call :=
  match splitIntoGroups pdf varName groupingName with
  | none => (Except.error PyErr.keyError, [])
  | some gs =>
    match gs.2 with
    | [c1, c2] =>
      match welchProv (dropnaCol c1) (dropnaCol c2) with
      | Except.error e =>
        (Except.error (PyErr.provider e), [Call.welchT (dropnaCol c1) (dropnaCol c2)])
      | Except.ok tp =>
        let n1 : ℚ := c1.length
        let n2 : ℚ := c2.length
        let A := npStd sqrtFn c1 / n1
        let B := npStd sqrtFn c2 / n2
        let df := (A + B) * (A + B) / (A * A / (n1 - 1) + B * B / (n2 - 1))
        (Except.ok [Item.testRes "Welch unequal variances t-test" tp.1 [df] none tp.2],
         [Call.welchT (dropnaCol c1) (dropnaCol c2)])
    | _ => (Except.error PyErr.valueError, [])

/-- Embedding of `mann_whitney_test`.  `mwNewProv` models
`stats.mannwhitneyu(..., alternative='two-sided')`; on any failure the
fallback `mwOldProv` models the keyword-less older call, whose one-sided
p-value is doubled before being reported; if the fallback also fails its
error message is returned as result text, not raised. -/
def mann_whitney_test
    (mwNewProv : List ℚ → List ℚ → Except String (ℚ × ℚ))
    (mwOldProv : List ℚ → List ℚ → Except String (ℚ × ℚ))
    (pdf : Pdf) (varName groupingName : String) :
    Except PyErr Report × List Call :=
  match splitIntoGroups pdf varName groupingName with
  | none => (Except.error PyErr.keyError, [])
  | some gs =>
    match gs.2 with
    | [c1, c2] =>
      let v1 := dropnaCol c1
      let v2 := dropnaCol c2
      match mwNewProv v1 v2 with
      | Except.ok up =>
        (Except.ok [Item.testRes "Mann-Whitney rank test" up.1 [] none up.2],
         [Call.mannwhitneyNew v1 v2])
      | Except.error _ =>
        match mwOldProv v1 v2 with
        | Except.ok up =>
          (Except.ok [Item.testRes "Mann-Whitney rank test" up.1 [] none (up.2 * 2)],
           [Call.mannwhitneyNew v1 v2, Call.mannwhitneyOld v1 v2])
        | Except.error e =>
          (Except.ok [Item.errText "Mann-Whitney rank test" e],
           [Call.mannwhitneyNew v1 v2, Call.mannwhitneyOld v1 v2])
    | _ => (Except.error PyErr.valueError, [])

/-- Embedding of `two_way_anova`.  Rows missing the dependent variable or any
grouping column are dropped; `olsProv` models the `ols(...)` fit plus
`anova_lm(..., typ=3)` table, rows of (df, F, p), indexed at 1 and 2 for the
main effects, 3 for the interaction and 4 for the residual df. -/
def two_way_anova (olsProv : List (ℚ × ℚ × ℚ) → Except String (List (ℚ × ℚ × ℚ)))
    (pdf : Pdf) (varName : String) (groupingNames : List String) :
    Except PyErr Report × List Call :=
  match (varName :: groupingNames).mapM (colIdx pdf) with
  | none => (Except.error PyErr.keyError, [])
  | some idxs =>
    let kept := pdf.rows.filter (fun r => idxs.all (fun i => (r.getD i none).isSome))
    match groupingNames.get? 0, groupingNames.get? 1 with
    | some _, some _ =>
      match idxs.get? 0, idxs.get? 1, idxs.get? 2 with
      | some vi, some i1, some i2 =>
        let data := kept.map (fun r =>
          ((r.getD vi none).getD 0, (r.getD i1 none).getD 0, (r.getD i2 none).getD 0))
        match olsProv data with
        | Except.error e => (Except.error (PyErr.provider e), [Call.olsAnova data])
        | Except.ok table =>
          match table.get? 1, table.get? 2, table.get? 3, table.get? 4 with
          | some r1, some r2, some r3, some r4 =>
            (Except.ok [Item.testRes (groupingNames.getD 0 "") r1.2.1 [r1.1, r4.1] none r1.2.2,
                        Item.testRes (groupingNames.getD 1 "") r2.2.1 [r2.1, r4.1] none r2.2.2,
                        Item.testRes
                          (groupingNames.getD 0 "" ++ ":" ++ groupingNames.getD 1 "")
                          r3.2.1 [r3.1, r4.1] none r3.2.2],
             [Call.olsAnova data])
          | _, _, _, _ => (Except.error PyErr.keyError, [Call.olsAnova data])
      | _, _, _ => (Except.error PyErr.indexError, [])
    | _, _ => (Except.error PyErr.indexError, [])

/-- Embedding of `kruskal_wallis_test`.  The whole computation sits in a
`try` whose handler appends `str(e)` to the text, so provider failures are
returned as text; the reported degrees of freedom are the number of group
levels present in the data minus one; the Dunn post-hoc runs only when
p < 0.05, on the (value, group) pairs whose group is present. -/
def kruskal_wallis_test
    (kruskalProv : List (List ℚ) → Except String (ℚ × ℚ))
    (dunnProv : List (Cell × ℚ) → Except String (List (List ℚ)))
    (pdf : Pdf) (varName groupingName : String) :
    Except PyErr Report × List Call :=
  match splitIntoGroups pdf varName groupingName with
  | none => (Except.error PyErr.keyError, [])
  | some gs =>
    let vars := gs.2.map dropnaCol
    match kruskalProv vars with
    | Except.error e => (Except.ok [Item.errText "Kruskal-Wallis test" e], [Call.kruskalT vars])
    | Except.ok hp =>
      match getCol pdf varName, getCol pdf groupingName with
      | some vc, some gc =>
        let df : ℚ := (gs.1.length : ℚ) - 1
        let base := [Item.testRes "Kruskal-Wallis test" hp.1 [df]
          (some (dropnaCol vc).length) hp.2]
        if hp.2 < 1/20 then
          let dunnData := (vc.zip gc).filterMap (fun p => p.2.map (fun g => (p.1, g)))
          match dunnProv dunnData with
          | Except.ok tbl =>
            (Except.ok (base ++
               [Item.decisionGroupsDiffer,
                Item.decisionDunn,
                Item.dunnTable tbl]),
             [Call.kruskalT vars, Call.dunnT dunnData])
          | Except.error e =>
            (Except.ok (base ++
               [Item.decisionGroupsDiffer,
                Item.decisionDunn,
                Item.errText "Kruskal-Wallis test" e]),
             [Call.kruskalT vars, Call.dunnT dunnData])
        else (Except.ok base, [Call.kruskalT vars])
      | _, _ =>
        -- unreachable once the split succeeded; a failure inside the `try`
        -- would be caught and surfaced as text
        (Except.ok [Item.errText "Kruskal-Wallis test" "KeyError"], [Call.kruskalT vars])

/-- Joining of name pieces with a leading `'_'` before every piece; the
synthesized variable names of the multi-way path are exactly these with the
first character dropped. -/
def prefixJoin (pieces : List PyStr) : PyStr :=
  pieces.flatMap (fun p => '_' :: p)

/-- One factor's step of the cartesian product of factor levels, keeping each
combination as the list of its level labels `factor_name ++ str(level)`. -/
def comboStep (acc : List (List PyStr)) (f : PyStr × ℕ) : List (List PyStr) :=
  acc.flatMap (fun prev => (List.range f.2).map (fun i => prev ++ [f.1 ++ natChars i]))

/-- The cartesian product of the factor levels, as label-combinations in the
order that positions the variable names (spec section 4.1, multi-way
step 1). -/
def comboLabels (factors : List (PyStr × ℕ)) : List (List PyStr) :=
  factors.foldl comboStep [[]]

/-- Long table as the spec words it (section 4.1, multi-way step 1): each
original row becomes one row per condition cell, tagged with the factor-level
combination at the position of its source variable name within the cartesian
product of the factor levels, with the original row index as subject
identifier.  The reference against which `buildLongTable` is compared. -/
def specLongTable (factors : List (PyStr × ℕ)) (data : List (ℕ × List ℚ)) : List LongRow :=
  (comboLabels factors).enum.flatMap
    (fun kc => data.map (fun r => ⟨r.1, r.2.getD kc.1 0, (prefixJoin kc.2).drop 1, kc.2⟩))

/-- Pooled standard error of a mean difference as the spec words it
(section 4.2): the pooled variance `sse / (n1 + n2 - 2)` times
`(1/n1 + 1/n2)`, under the square root; the square root is the same opaque
provider the source uses.  The reference against which the source's
`s_m1m2` is compared. -/
def specPooledSE (sqrtFn : ℚ → ℚ) (var1 var2 : List ℚ) : ℚ :=
  sqrtFn ((sqDevSum var1 + sqDevSum var2) / ((var1.length : ℚ) + (var2.length : ℚ) - 2) *
    (1 / (var1.length : ℚ) + 1 / (var2.length : ℚ)))

/-- The Welch degrees-of-freedom formula of the source evaluated on the
per-group samples after missing-value removal — what the claim says every
reported quantity is computed from. -/
def welchDfDropped (sqrtFn : ℚ → ℚ) (c1 c2 : List Cell) : ℚ :=
  let v1 := dropnaCol c1
  let v2 := dropnaCol c2
  let n1 : ℚ := v1.length
  let n2 : ℚ := v2.length
  let A := sqrtFn (sqDevSum v1 / n1) / n1
  let B := sqrtFn (sqDevSum v2 / n2) / n2
  (A + B) * (A + B) / (A * A / (n1 - 1) + B * B / (n2 - 1))

/-- The report of a non-exceptional outcome, empty for an exception. -/
def okReport : Except PyErr Report → Report
  | Except.ok r => r
  | Except.error _ => []

/-- Is this item the Greenhouse-Geisser decision narrative? -/
def isGGDecision : Item → Bool
  | Item.decisionGG => true
  | _ => false

/-- Does the report record that the Greenhouse-Geisser branch was taken? -/
def hasGGDecision (r : Report) : Bool := r.any isGGDecision

/-- Is this item a pairwise post-hoc table? -/
def isPostHocT : Item → Bool
  | Item.postHocT _ => true
  | _ => false

/-- Does the report contain a pairwise post-hoc table? -/
def hasPostHocT (r : Report) : Bool := r.any isPostHocT

/-- Is this item a Dunn post-hoc table? -/
def isDunnTable : Item → Bool
  | Item.dunnTable _ => true
  | _ => false

/-- Does the report contain a Dunn post-hoc table? -/
def hasDunnTable (r : Report) : Bool := r.any isDunnTable

/-- Is this item a mean-difference confidence interval? -/
def isConfInt : Item → Bool
  | Item.confInt _ _ _ => true
  | _ => false

/-- Does the report contain a mean-difference confidence interval? -/
def hasConfInt (r : Report) : Bool := r.any isConfInt

/-- Is this item a configuration-error message? -/
def isConfigMsg : Item → Bool
  | Item.configMsg _ => true
  | _ => false

/-- Is this call an invocation of the pairwise post-hoc routine? -/
def isPairwiseCall : Call → Bool
  | Call.pairwiseT _ => true
  | _ => false

/-- Was the pairwise post-hoc routine invoked? -/
def calledPairwise (cs : List Call) : Bool := cs.any isPairwiseCall

/-- Is this call an invocation of the Dunn post-hoc routine? -/
def isDunnCall : Call → Bool
  | Call.dunnT _ => true
  | _ => false

/-- Was the Dunn post-hoc routine invoked? -/
def calledDunn (cs : List Call) : Bool := cs.any isDunnCall

/-- The degrees of freedom reported by the first test-result line carrying
the given test name. -/
def dfsOfTest (name : String) (r : Report) : Option (List ℚ) :=
  r.findSome? (fun it => match it with
    | Item.testRes n _ dfs _ _ => if n = name then some dfs else none
    | _ => none)

/-- The p-values carried by one report item. -/
def itemPs : Item → List ℚ
  | Item.testRes _ _ _ _ p => [p]
  | Item.postHocT rows => rows.map (fun r => r.2.2)
  | Item.dunnTable tbl => tbl.flatten
  | _ => []

/-- Every p-value included in a report, in order. -/
def reportPs (r : Report) : List ℚ := r.flatMap itemPs

/-- Did a call into the module return a value to the caller (rather than
raise an exception)? -/
def returnsText {α : Type} : Except PyErr α → Bool
  | Except.ok _ => true
  | Except.error _ => false

/-! Lemmas about the synthesized-name machinery of the multi-way path. -/

theorem digitChar_ne_underscore (n : ℕ) : Nat.digitChar n ≠ '_' := by
  rcases Nat.lt_or_ge n 16 with h | h
  · interval_cases n <;> decide
  · unfold Nat.digitChar
    rw [if_neg (by omega : ¬ n = 0), if_neg (by omega : ¬ n = 1), if_neg (by omega : ¬ n = 2),
        if_neg (by omega : ¬ n = 3), if_neg (by omega : ¬ n = 4), if_neg (by omega : ¬ n = 5),
        if_neg (by omega : ¬ n = 6), if_neg (by omega : ¬ n = 7), if_neg (by omega : ¬ n = 8),
        if_neg (by omega : ¬ n = 9), if_neg (by omega : ¬ n = 10), if_neg (by omega : ¬ n = 11),
        if_neg (by omega : ¬ n = 12), if_neg (by omega : ¬ n = 13), if_neg (by omega : ¬ n = 14),
        if_neg (by omega : ¬ n = 15)]
    decide

theorem toDigitsCore_ne_underscore (f : ℕ) : ∀ (n : ℕ) (ds : List Char),
    (∀ c ∈ ds, c ≠ '_') → ∀ c ∈ Nat.toDigitsCore 10 f n ds, c ≠ '_' := by
  induction f with
  | zero => intro n ds h c hc; exact h c hc
  | succ f ih =>
    intro n ds h c hc
    unfold Nat.toDigitsCore at hc
    simp only at hc
    split at hc
    · rcases List.mem_cons.mp hc with h1 | h1
      · subst h1; exact digitChar_ne_underscore _
      · exact h c h1
    · refine ih _ _ ?_ c hc
      intro c' hc'
      rcases List.mem_cons.mp hc' with h1 | h1
      · subst h1; exact digitChar_ne_underscore _
      · exact h c' h1

theorem natChars_ne_underscore (n : ℕ) : ('_' : Char) ∉ natChars n := by
  intro hmem
  exact toDigitsCore_ne_underscore (n + 1) n [] (by intro c hc; cases hc) '_' hmem rfl

theorem splitSep_of_not_mem {sep : Char} {p : PyStr} (h : sep ∉ p) : splitSep sep p = [p] := by
  induction p with
  | nil => rfl
  | cons c rest ih =>
    have hc : ¬ c = sep := fun hcs => h (hcs ▸ List.mem_cons_self c rest)
    have hrest : sep ∉ rest := fun hm => h (List.mem_cons_of_mem _ hm)
    simp [splitSep, hc, ih hrest]

theorem splitSep_append_cons {sep : Char} {p : PyStr} (s : PyStr) (h : sep ∉ p) :
    splitSep sep (p ++ sep :: s) = p :: splitSep sep s := by
  induction p with
  | nil => simp [splitSep]
  | cons c rest ih =>
    have hc : ¬ c = sep := fun hcs => h (hcs ▸ List.mem_cons_self c rest)
    have hrest : sep ∉ rest := fun hm => h (List.mem_cons_of_mem _ hm)
    simp [splitSep, hc, ih hrest]

theorem prefixJoin_cons (p : PyStr) (rest : List PyStr) :
    prefixJoin (p :: rest) = '_' :: (p ++ prefixJoin rest) := by
  simp [prefixJoin]

theorem prefixJoin_append_single (pieces : List PyStr) (x : PyStr) :
    prefixJoin (pieces ++ [x]) = prefixJoin pieces ++ '_' :: x := by
  simp [prefixJoin]

theorem splitSep_prefixJoin (pieces : List PyStr) (hne : pieces ≠ [])
    (h : ∀ p ∈ pieces, ('_' : Char) ∉ p) :
    splitSep '_' ((prefixJoin pieces).drop 1) = pieces := by
  induction pieces with
  | nil => exact absurd rfl hne
  | cons p rest ih =>
    rw [prefixJoin_cons, List.drop_one, List.tail_cons]
    cases rest with
    | nil =>
      simp only [prefixJoin, List.flatMap_nil, List.append_nil]
      exact splitSep_of_not_mem (h p (List.mem_cons_self _ _))
    | cons q rs =>
      rw [prefixJoin_cons, splitSep_append_cons _ (h p (List.mem_cons_self _ _))]
      have hqs := ih (by simp) (fun x hx => h x (List.mem_cons_of_mem _ hx))
      rw [prefixJoin_cons, List.drop_one, List.tail_cons] at hqs
      rw [hqs]

theorem tempStep_map (acc : List (List PyStr)) (f : PyStr × ℕ) :
    tempStep (acc.map prefixJoin) f = (comboStep acc f).map prefixJoin := by
  simp only [tempStep, comboStep]
  induction acc with
  | nil => rfl
  | cons a acc ih =>
    simp only [List.map_cons, List.flatMap_cons, List.map_append, List.map_map, ih]
    congr 1
    apply List.map_congr_left
    intro i _
    simp [Function.comp, prefixJoin_append_single]

theorem foldl_tempStep_eq (fs : List (PyStr × ℕ)) :
    ∀ acc : List (List PyStr),
      List.foldl tempStep (acc.map prefixJoin) fs = (List.foldl comboStep acc fs).map prefixJoin := by
  induction fs with
  | nil => intro acc; rfl
  | cons f fs ih =>
    intro acc
    simp only [List.foldl_cons]
    rw [tempStep_map, ih]

theorem tempVarNames_eq_comboLabels (factors : List (PyStr × ℕ)) :
    tempVarNames factors = (comboLabels factors).map (fun c => (prefixJoin c).drop 1) := by
  unfold tempVarNames comboLabels
  have h : ([[]] : List PyStr) = ([[]] : List (List PyStr)).map prefixJoin := rfl
  rw [h, foldl_tempStep_eq, List.map_map]
  rfl

theorem mem_comboStep {acc : List (List PyStr)} {f : PyStr × ℕ} {c : List PyStr}
    (h : c ∈ comboStep acc f) :
    ∃ prev ∈ acc, ∃ i < f.2, c = prev ++ [f.1 ++ natChars i] := by
  simp only [comboStep, List.mem_flatMap, List.mem_map, List.mem_range] at h
  obtain ⟨prev, hprev, i, hi, rfl⟩ := h
  exact ⟨prev, hprev, i, hi, rfl⟩

theorem foldl_comboStep_pieces (fs : List (PyStr × ℕ)) :
    ∀ acc : List (List PyStr), (∀ f ∈ fs, ('_' : Char) ∉ f.1) →
      (∀ c ∈ acc, ∀ p ∈ c, ('_' : Char) ∉ p) →
      ∀ c ∈ List.foldl comboStep acc fs, ∀ p ∈ c, ('_' : Char) ∉ p := by
  induction fs with
  | nil => intro acc _ hacc; simpa using hacc
  | cons f fs ih =>
    intro acc hfs hacc c hc p hp
    refine ih (comboStep acc f) (fun g hg => hfs g (List.mem_cons_of_mem _ hg)) ?_ c hc p hp
    intro c' hc' p' hp'
    obtain ⟨prev, hprev, i, _, rfl⟩ := mem_comboStep hc'
    rcases List.mem_append.mp hp' with h1 | h1
    · exact hacc prev hprev p' h1
    · have hp'' : p' = f.1 ++ natChars i := List.mem_singleton.mp h1
      subst hp''
      intro hmem
      rcases List.mem_append.mp hmem with h2 | h2
      · exact hfs f (List.mem_cons_self _ _) h2
      · exact natChars_ne_underscore i h2

theorem foldl_comboStep_ne_nil (fs : List (PyStr × ℕ)) :
    ∀ acc : List (List PyStr), (∀ c ∈ acc, c ≠ []) →
      ∀ c ∈ List.foldl comboStep acc fs, c ≠ [] := by
  induction fs with
  | nil => intro acc hacc; simpa using hacc
  | cons f fs ih =>
    intro acc _ c hc
    refine ih (comboStep acc f) ?_ c hc
    intro c' hc'
    obtain ⟨prev, _, i, _, rfl⟩ := mem_comboStep hc'
    simp

theorem comboLabels_ne_nil {factors : List (PyStr × ℕ)} (hne : factors ≠ [])
    {c : List PyStr} (hc : c ∈ comboLabels factors) : c ≠ [] := by
  cases factors with
  | nil => exact absurd rfl hne
  | cons f fs =>
    unfold comboLabels at hc
    rw [List.foldl_cons] at hc
    refine foldl_comboStep_ne_nil fs (comboStep [[]] f) ?_ c hc
    intro c' hc'
    obtain ⟨prev, _, i, _, rfl⟩ := mem_comboStep hc'
    simp

theorem comboLabels_pieces {factors : List (PyStr × ℕ)}
    (h : ∀ f ∈ factors, ('_' : Char) ∉ f.1) {c : List PyStr}
    (hc : c ∈ comboLabels factors) : ∀ p ∈ c, ('_' : Char) ∉ p := by
  refine foldl_comboStep_pieces factors [[]] h ?_ c hc
  intro c' hc' p hp
  have : c' = [] := by simpa using hc'
  subst this
  cases hp

theorem length_comboStep (acc : List (List PyStr)) (f : PyStr × ℕ) :
    (comboStep acc f).length = acc.length * f.2 := by
  induction acc with
  | nil => simp [comboStep]
  | cons a acc ih =>
    simp only [comboStep, List.flatMap_cons, List.length_append, List.length_map,
      List.length_range, List.length_cons] at *
    rw [ih, Nat.succ_mul, Nat.add_comm]

theorem length_foldl_comboStep (fs : List (PyStr × ℕ)) :
    ∀ acc : List (List PyStr),
      (List.foldl comboStep acc fs).length = acc.length * (fs.map (fun f => f.2)).prod := by
  induction fs with
  | nil => intro acc; simp
  | cons f fs ih =>
    intro acc
    rw [List.foldl_cons, ih, length_comboStep]
    simp [Nat.mul_assoc]

theorem length_comboLabels (factors : List (PyStr × ℕ)) :
    (comboLabels factors).length = (factors.map (fun f => f.2)).prod := by
  unfold comboLabels
  rw [length_foldl_comboStep]
  simp

theorem length_tempVarNames (factors : List (PyStr × ℕ)) :
    (tempVarNames factors).length = (factors.map (fun f => f.2)).prod := by
  rw [tempVarNames_eq_comboLabels, List.length_map, length_comboLabels]

theorem flatMap_congr_mem {α β : Type} {l : List α} {f g : α → List β}
    (h : ∀ a ∈ l, f a = g a) : l.flatMap f = l.flatMap g := by
  induction l with
  | nil => rfl
  | cons a l ih =>
    simp only [List.flatMap_cons]
    rw [h a (List.mem_cons_self _ _), ih (fun x hx => h x (List.mem_cons_of_mem _ hx))]

theorem snd_mem_of_mem_enum {α : Type} {l : List α} {p : ℕ × α} (h : p ∈ l.enum) : p.2 ∈ l := by
  rw [List.enum_eq_zip_range] at h
  exact (List.of_mem_zip h).2

theorem buildLongTable_eq_spec (factors : List (PyStr × ℕ)) (data : List (ℕ × List ℚ))
    (hne : factors ≠ []) (hsep : ∀ f ∈ factors, ('_' : Char) ∉ f.1) :
    buildLongTable factors data = specLongTable factors data := by
  unfold buildLongTable specLongTable
  rw [tempVarNames_eq_comboLabels, List.enum_map, List.flatMap_map]
  refine flatMap_congr_mem ?_
  intro kc hkc
  have hc : kc.2 ∈ comboLabels factors := snd_mem_of_mem_enum hkc
  have hsplit : splitSep '_' ((prefixJoin kc.2).drop 1) = kc.2 :=
    splitSep_prefixJoin kc.2 (comboLabels_ne_nil hne hc) (comboLabels_pieces hsep hc)
  rw [List.drop_one] at hsplit
  simp [Prod.map, hsplit]

/-- C7 (amended): in the multi-way path of `repeated_measures_anova`, for
every factors list whose level-count product equals the number of variable
names and whose factor names do not contain the separator `'_'`, the long
table handed to the `AnovaRM` provider is exactly the specification's long
table: each long-form row is tagged with the factor-level combination
determined by the position of its source variable name within the cartesian
product of the factor levels, and carries the original row index as subject
identifier. -/
theorem c7_multiway_long_table
    (rmProv : List (List ℚ) → Except String RMNums)
    (pairProv : List (List ℚ) → Except String (List (PyStr × ℚ × ℚ)))
    (anovaRMProv : List LongRow → Except String (List (PyStr × ℚ × ℚ × ℚ × ℚ)))
    (pdf : Pdf) (varNames : List String) (factors : List (PyStr × ℕ))
    (rows : List (List Cell))
    (hfac : factors ≠ [])
    (hsep : ∀ f ∈ factors, ('_' : Char) ∉ f.1)
    (hsel : selectRows pdf varNames = some rows)
    (hprod : (factors.map (fun f => f.2)).prod = varNames.length) :
    (repeated_measures_anova rmProv pairProv anovaRMProv pdf varNames factors).2 =
      [Call.anovaRM (specLongTable factors (dropnaIdx rows))] := by
  have hfe : factors.isEmpty = false := by
    cases factors
    · exact absurd rfl hfac
    · rfl
  have hlen : ¬ (tempVarNames factors).length ≠ varNames.length := by
    rw [length_tempVarNames, hprod]
    exact fun h => h rfl
  unfold repeated_measures_anova rm_multiway
  rw [hfe, hsel]
  simp only [Bool.false_eq_true, if_false]
  rw [if_neg hlen, buildLongTable_eq_spec factors (dropnaIdx rows) hfac hsep]
  cases anovaRMProv (specLongTable factors (dropnaIdx rows)) <;> rfl

/-- Witness for C7: a concrete 2 × 2 design on one data row. -/
theorem c7_multiway_long_table_witness :
    (repeated_measures_anova (fun _ => Except.ok ⟨0, 0, 0, 0, 0, 0, 0, 0⟩)
        (fun _ => Except.ok []) (fun _ => Except.ok [])
        ⟨["v1", "v2", "v3", "v4"], [[some 1, some 2, some 3, some 4]]⟩
        ["v1", "v2", "v3", "v4"] [(['A'], 2), (['B'], 2)]).2 =
      [Call.anovaRM (specLongTable [(['A'], 2), (['B'], 2)]
        (dropnaIdx [[some 1, some 2, some 3, some 4]]))] :=
  c7_multiway_long_table _ _ _ _ _ _ _ (by decide) (by decide) (by decide) (by decide)

/-- Counterexample for C7 as stated: with a factor named `a_b` (containing
the separator), the long-form rows are not tagged with the factor-level
combinations of the cartesian product — the split on `'_'` produces the
pieces `a` and `b0` instead of the level label `a_b0`. -/
theorem c7_counterexample :
    buildLongTable [(['a', '_', 'b'], 2)] [(0, [1, 2])] ≠
      specLongTable [(['a', '_', 'b'], 2)] [(0, [1, 2])] := by decide

/-- Characterization of the one-way branch on the success path: Mauchly line,
sphericity decision, ANOVA line with the chosen correction, and the post-hoc
table and call exactly under the chosen p < 0.05. -/
theorem rm_oneway_ok
    (rmProv : List (List ℚ) → Except String RMNums)
    (pairProv : List (List ℚ) → Except String (List (PyStr × ℚ × ℚ)))
    (pdf : Pdf) (varNames : List String) (rows : List (List Cell)) (r : RMNums)
    (pht : List (PyStr × ℚ × ℚ))
    (hsel : selectRows pdf varNames = some rows)
    (hrm : rmProv (dropnaRows rows) = Except.ok r)
    (hpair : pairProv (dropnaRows rows) = Except.ok pht) :
    rm_oneway rmProv pairProv pdf varNames =
      (Except.ok ((if r.pw < 1/20 then
          [Item.testRes "Mauchly sphericity test" r.w [] none r.pw, Item.decisionGG,
           Item.testRes "Repeated measures ANOVA" r.f [r.dfn * r.eps, r.dfd * r.eps] none r.pGG]
        else
          [Item.testRes "Mauchly sphericity test" r.w [] none r.pw, Item.decisionNoGG,
           Item.testRes "Repeated measures ANOVA" r.f [r.dfn, r.dfd] none r.pf]) ++
        (if (if r.pw < 1/20 then r.pGG else r.pf) < 1/20 then
          [Item.decisionPairwise, Item.postHocT (sortByLabel pht)] else [])),
       Call.rmAnovaNum (dropnaRows rows) ::
        (if (if r.pw < 1/20 then r.pGG else r.pf) < 1/20 then
          [Call.pairwiseT (dropnaRows rows)] else [])) := by
  unfold rm_oneway
  rw [hsel]
  dsimp only
  rw [hrm]
  dsimp only
  by_cases hpw : r.pw < 1/20
  · simp only [if_pos hpw]
    by_cases hp : r.pGG < 1/20
    · rw [if_pos hp, hpair]
      simp only [if_pos hp]
    · rw [if_neg hp]
      simp only [if_neg hp, List.append_nil]
  · simp only [if_neg hpw]
    by_cases hp : r.pf < 1/20
    · rw [if_pos hp, hpair]
      simp only [if_pos hp]
    · rw [if_neg hp]
      simp only [if_neg hp, List.append_nil]

/-- Characterization of `kruskal_wallis_test` on the success path: the
Kruskal-Wallis line with degrees of freedom from the levels present, and the
Dunn table and call exactly under p < 0.05. -/
theorem kruskal_ok
    (kruskalProv : List (List ℚ) → Except String (ℚ × ℚ))
    (dunnProv : List (Cell × ℚ) → Except String (List (List ℚ)))
    (pdf : Pdf) (varName groupingName : String)
    (gs : List ℚ × List (List Cell)) (hp : ℚ × ℚ)
    (vc gc : List Cell) (tbl : List (List ℚ))
    (hsplit : splitIntoGroups pdf varName groupingName = some gs)
    (hk : kruskalProv (gs.2.map dropnaCol) = Except.ok hp)
    (hvc : getCol pdf varName = some vc)
    (hgc : getCol pdf groupingName = some gc)
    (hdunn : dunnProv ((vc.zip gc).filterMap (fun p => p.2.map (fun g => (p.1, g)))) =
      Except.ok tbl) :
    kruskal_wallis_test kruskalProv dunnProv pdf varName groupingName =
      (Except.ok ([Item.testRes "Kruskal-Wallis test" hp.1 [(gs.1.length : ℚ) - 1]
          (some (dropnaCol vc).length) hp.2] ++
        (if hp.2 < 1/20 then
          [Item.decisionGroupsDiffer, Item.decisionDunn, Item.dunnTable tbl] else [])),
       Call.kruskalT (gs.2.map dropnaCol) ::
        (if hp.2 < 1/20 then
          [Call.dunnT ((vc.zip gc).filterMap (fun p => p.2.map (fun g => (p.1, g))))]
         else [])) := by
  unfold kruskal_wallis_test
  rw [hsplit]
  dsimp only
  rw [hk]
  dsimp only
  rw [hvc, hgc]
  dsimp only
  by_cases hps : hp.2 < 1/20
  · rw [if_pos hps, hdunn]
    simp only [if_pos hps]
  · rw [if_neg hps]
    simp only [if_neg hps, List.append_nil]

/-- C1: in the one-way branch of `repeated_measures_anova`, the
Greenhouse-Geisser-corrected branch is taken (the report carries the
Greenhouse-Geisser decision narrative) exactly when Mauchly's p-value is
below 0.05, and in that branch the reported numerator and denominator degrees
of freedom of the ANOVA line are `dfn * epsilon` and `dfd * epsilon`, where
`epsilon` is the Greenhouse-Geisser correction factor and `dfn`, `dfd` the
uncorrected degrees of freedom. -/
theorem c1_gg_branch
    (rmProv : List (List ℚ) → Except String RMNums)
    (pairProv : List (List ℚ) → Except String (List (PyStr × ℚ × ℚ)))
    (anovaRMProv : List LongRow → Except String (List (PyStr × ℚ × ℚ × ℚ × ℚ)))
    (pdf : Pdf) (varNames : List String) (rows : List (List Cell)) (r : RMNums)
    (pht : List (PyStr × ℚ × ℚ))
    (hsel : selectRows pdf varNames = some rows)
    (hrm : rmProv (dropnaRows rows) = Except.ok r)
    (hpair : pairProv (dropnaRows rows) = Except.ok pht) :
    (hasGGDecision (okReport
        (repeated_measures_anova rmProv pairProv anovaRMProv pdf varNames []).1) = true
      ↔ r.pw < 1/20) ∧
    (r.pw < 1/20 →
      dfsOfTest "Repeated measures ANOVA" (okReport
          (repeated_measures_anova rmProv pairProv anovaRMProv pdf varNames []).1) =
        some [r.dfn * r.eps, r.dfd * r.eps]) := by
  have hdisp : repeated_measures_anova rmProv pairProv anovaRMProv pdf varNames [] =
      rm_oneway rmProv pairProv pdf varNames := rfl
  rw [hdisp, rm_oneway_ok rmProv pairProv pdf varNames rows r pht hsel hrm hpair]
  by_cases hpw : r.pw < 1/20
  · simp only [if_pos hpw]
    by_cases hp : r.pGG < 1/20
    · simp only [if_pos hp]
      simp [okReport, hasGGDecision, isGGDecision, dfsOfTest]
      simpa using hpw
    · simp only [if_neg hp, List.append_nil]
      simp [okReport, hasGGDecision, isGGDecision, dfsOfTest]
      simpa using hpw
  · simp only [if_neg hpw]
    by_cases hp : r.pf < 1/20
    · simp only [if_pos hp]
      simp [okReport, hasGGDecision, isGGDecision, dfsOfTest]
      refine ⟨by simpa using hpw, fun h => absurd h (by simpa using hpw)⟩
    · simp only [if_neg hp, List.append_nil]
      simp [okReport, hasGGDecision, isGGDecision, dfsOfTest]
      refine ⟨by simpa using hpw, fun h => absurd h (by simpa using hpw)⟩

/-- Witness for C1: a concrete Mauchly p of 1/100 takes the
Greenhouse-Geisser branch. -/
theorem c1_gg_branch_witness :
    hasGGDecision (okReport
      (repeated_measures_anova
        (fun _ => Except.ok (⟨2, 10, 5, 1/10, 3/10, 1/100, 1/2, 1/50⟩ : RMNums))
        (fun _ => Except.ok []) (fun _ => Except.ok [])
        ⟨["a", "b"], [[some 1, some 2]]⟩ ["a", "b"] []).1) = true :=
  (c1_gg_branch _ _ _ _ _ [[some 1, some 2]] ⟨2, 10, 5, 1/10, 3/10, 1/100, 1/2, 1/50⟩ []
    (by decide) rfl rfl).1.mpr (by norm_num)

/-- C2: a post-hoc result is included in the returned text, and the post-hoc
routine invoked, exactly when the omnibus p-value chosen by the test is below
0.05 — the Holm-Bonferroni pairwise table against the chosen (possibly
Greenhouse-Geisser-corrected) p in one-way `repeated_measures_anova`, and the
Dunn table against the Kruskal-Wallis p in `kruskal_wallis_test`. -/
theorem c2_posthoc_gate
    (rmProv : List (List ℚ) → Except String RMNums)
    (pairProv : List (List ℚ) → Except String (List (PyStr × ℚ × ℚ)))
    (anovaRMProv : List LongRow → Except String (List (PyStr × ℚ × ℚ × ℚ × ℚ)))
    (pdf : Pdf) (varNames : List String) (rows : List (List Cell)) (r : RMNums)
    (pht : List (PyStr × ℚ × ℚ))
    (kruskalProv : List (List ℚ) → Except String (ℚ × ℚ))
    (dunnProv : List (Cell × ℚ) → Except String (List (List ℚ)))
    (kpdf : Pdf) (varName groupingName : String)
    (gs : List ℚ × List (List Cell)) (khp : ℚ × ℚ) (vc gc : List Cell) (tbl : List (List ℚ))
    (hsel : selectRows pdf varNames = some rows)
    (hrm : rmProv (dropnaRows rows) = Except.ok r)
    (hpair : pairProv (dropnaRows rows) = Except.ok pht)
    (hsplit : splitIntoGroups kpdf varName groupingName = some gs)
    (hk : kruskalProv (gs.2.map dropnaCol) = Except.ok khp)
    (hvc : getCol kpdf varName = some vc)
    (hgc : getCol kpdf groupingName = some gc)
    (hdunn : dunnProv ((vc.zip gc).filterMap (fun p => p.2.map (fun g => (p.1, g)))) =
      Except.ok tbl) :
    ((hasPostHocT (okReport
          (repeated_measures_anova rmProv pairProv anovaRMProv pdf varNames []).1) = true
        ↔ (if r.pw < 1/20 then r.pGG else r.pf) < 1/20) ∧
      (calledPairwise
          (repeated_measures_anova rmProv pairProv anovaRMProv pdf varNames []).2 = true
        ↔ (if r.pw < 1/20 then r.pGG else r.pf) < 1/20)) ∧
    ((hasDunnTable (okReport
          (kruskal_wallis_test kruskalProv dunnProv kpdf varName groupingName).1) = true
        ↔ khp.2 < 1/20) ∧
      (calledDunn
          (kruskal_wallis_test kruskalProv dunnProv kpdf varName groupingName).2 = true
        ↔ khp.2 < 1/20)) := by
  have hdisp : repeated_measures_anova rmProv pairProv anovaRMProv pdf varNames [] =
      rm_oneway rmProv pairProv pdf varNames := rfl
  constructor
  · rw [hdisp, rm_oneway_ok rmProv pairProv pdf varNames rows r pht hsel hrm hpair]
    by_cases hpw : r.pw < 1/20
    · simp only [if_pos hpw]
      by_cases hp : r.pGG < 1/20
      · simp only [if_pos hp]
        simp [okReport, hasPostHocT, isPostHocT, calledPairwise, isPairwiseCall]
        simpa using hp
      · simp only [if_neg hp, List.append_nil]
        simp [okReport, hasPostHocT, isPostHocT, calledPairwise, isPairwiseCall]
        simpa using hp
    · simp only [if_neg hpw]
      by_cases hp : r.pf < 1/20
      · simp only [if_pos hp]
        simp [okReport, hasPostHocT, isPostHocT, calledPairwise, isPairwiseCall]
        simpa using hp
      · simp only [if_neg hp, List.append_nil]
        simp [okReport, hasPostHocT, isPostHocT, calledPairwise, isPairwiseCall]
        simpa using hp
  · rw [kruskal_ok kruskalProv dunnProv kpdf varName groupingName gs khp vc gc tbl
      hsplit hk hvc hgc hdunn]
    by_cases hps : khp.2 < 1/20
    · simp only [if_pos hps]
      simp [okReport, hasDunnTable, isDunnTable, calledDunn, isDunnCall]
      simpa using hps
    · simp only [if_neg hps, List.append_nil]
      simp [okReport, hasDunnTable, isDunnTable, calledDunn, isDunnCall]
      simpa using hps

/-- Witness for C2: with a Greenhouse-Geisser-corrected p of 1/50 the
pairwise table is present, and with a Kruskal-Wallis p of 1/100 the Dunn
table is present. -/
theorem c2_posthoc_gate_witness :
    hasPostHocT (okReport
      (repeated_measures_anova
        (fun _ => Except.ok (⟨2, 10, 5, 1/10, 3/10, 1/100, 1/2, 1/50⟩ : RMNums))
        (fun _ => Except.ok []) (fun _ => Except.ok [])
        ⟨["a", "b"], [[some 1, some 2]]⟩ ["a", "b"] []).1) = true ∧
    hasDunnTable (okReport
      (kruskal_wallis_test (fun _ => Except.ok (7, 1/100)) (fun _ => Except.ok [[1]])
        ⟨["v", "g"], [[some 1, some 10], [some 2, some 20]]⟩ "v" "g").1) = true :=
  ⟨(c2_posthoc_gate
      (fun _ => Except.ok (⟨2, 10, 5, 1/10, 3/10, 1/100, 1/2, 1/50⟩ : RMNums))
      (fun _ => Except.ok []) (fun _ => Except.ok [])
      ⟨["a", "b"], [[some 1, some 2]]⟩ ["a", "b"] [[some 1, some 2]]
      ⟨2, 10, 5, 1/10, 3/10, 1/100, 1/2, 1/50⟩ []
      (fun _ => Except.ok (7, 1/100)) (fun _ => Except.ok [[1]])
      ⟨["v", "g"], [[some 1, some 10], [some 2, some 20]]⟩ "v" "g"
      ([10, 20], [[some 1], [some 2]]) (7, 1/100)
      [some 1, some 2] [some 10, some 20] [[1]]
      (by decide) rfl rfl (by decide) rfl (by decide) (by decide) rfl).1.1.mpr (by norm_num),
   (c2_posthoc_gate
      (fun _ => Except.ok (⟨2, 10, 5, 1/10, 3/10, 1/100, 1/2, 1/50⟩ : RMNums))
      (fun _ => Except.ok []) (fun _ => Except.ok [])
      ⟨["a", "b"], [[some 1, some 2]]⟩ ["a", "b"] [[some 1, some 2]]
      ⟨2, 10, 5, 1/10, 3/10, 1/100, 1/2, 1/50⟩ []
      (fun _ => Except.ok (7, 1/100)) (fun _ => Except.ok [[1]])
      ⟨["v", "g"], [[some 1, some 10], [some 2, some 20]]⟩ "v" "g"
      ([10, 20], [[some 1], [some 2]]) (7, 1/100)
      [some 1, some 2] [some 10, some 20] [[1]]
      (by decide) rfl rfl (by decide) rfl (by decide) (by decide) rfl).2.1.mpr (by norm_num)⟩

/-- C10: `kruskal_wallis_test` reports degrees of freedom `k - 1` where `k`
is the number of distinct group levels actually present in the grouping
column — the level list produced by the split, which equals the distinct
non-missing values of the grouping column in order of first appearance. -/
theorem c10_kruskal_df
    (kruskalProv : List (List ℚ) → Except String (ℚ × ℚ))
    (dunnProv : List (Cell × ℚ) → Except String (List (List ℚ)))
    (pdf : Pdf) (varName groupingName : String)
    (levels : List ℚ) (groups : List (List Cell)) (khp : ℚ × ℚ)
    (vc gc : List Cell) (tbl : List (List ℚ))
    (hsplit : splitIntoGroups pdf varName groupingName = some (levels, groups))
    (hk : kruskalProv (groups.map dropnaCol) = Except.ok khp)
    (hvc : getCol pdf varName = some vc)
    (hgc : getCol pdf groupingName = some gc)
    (hdunn : dunnProv ((vc.zip gc).filterMap (fun p => p.2.map (fun g => (p.1, g)))) =
      Except.ok tbl) :
    dfsOfTest "Kruskal-Wallis test" (okReport
        (kruskal_wallis_test kruskalProv dunnProv pdf varName groupingName).1) =
      some [(levels.length : ℚ) - 1] ∧
    ∃ gi, colIdx pdf groupingName = some gi ∧
      levels = uniqueVals ((pdf.rows.map (fun row => row.getD gi none)).filterMap id) := by
  constructor
  · rw [kruskal_ok kruskalProv dunnProv pdf varName groupingName (levels, groups) khp vc gc tbl
      hsplit hk hvc hgc hdunn]
    by_cases hps : khp.2 < 1/20
    · simp only [if_pos hps]
      simp [okReport, dfsOfTest]
    · simp only [if_neg hps, List.append_nil]
      simp [okReport, dfsOfTest]
  · unfold splitIntoGroups at hsplit
    rcases hvi : colIdx pdf varName with _ | vi <;> rw [hvi] at hsplit
    · cases hsplit
    · rcases hgi : colIdx pdf groupingName with _ | gi <;> rw [hgi] at hsplit
      · cases hsplit
      · refine ⟨gi, rfl, ?_⟩
        simp only [Option.some.injEq] at hsplit
        have hlv : levels = uniqueVals
            ((pdf.rows.map (fun r => (r.getD vi none, r.getD gi none))).filterMap
              (fun p => p.2)) := congrArg Prod.fst hsplit.symm
        rw [hlv, List.filterMap_map, List.filterMap_map]
        rfl

/-- Witness for C10: three groups present in the data give df = 2. -/
theorem c10_kruskal_df_witness :
    dfsOfTest "Kruskal-Wallis test" (okReport
        (kruskal_wallis_test (fun _ => Except.ok (7, 1/2)) (fun _ => Except.ok [])
          ⟨["v", "g"], [[some 1, some 10], [some 2, some 20], [some 3, some 30],
            [some 4, some 10]]⟩ "v" "g").1) =
      some [(([10, 20, 30] : List ℚ).length : ℚ) - 1] :=
  (c10_kruskal_df (fun _ => Except.ok (7, 1/2)) (fun _ => Except.ok [])
    ⟨["v", "g"], [[some 1, some 10], [some 2, some 20], [some 3, some 30], [some 4, some 10]]⟩
    "v" "g" [10, 20, 30]
    [[some 1, some 4], [some 2], [some 3]] (7, 1/2)
    [some 1, some 2, some 3, some 4] [some 10, some 20, some 30, some 10] []
    (by decide) rfl (by decide) (by decide) rfl).1

/-- C5: when the primary two-sided Mann-Whitney computation fails, the
fallback's one-sided p-value is doubled before being reported, and if the
fallback also fails its error message is returned verbatim as result text
instead of being raised. -/
theorem c5_mw_fallback
    (mwNewProv mwOldProv : List ℚ → List ℚ → Except String (ℚ × ℚ))
    (pdf : Pdf) (varName groupingName : String)
    (gs : List ℚ × List (List Cell)) (c1 c2 : List Cell) (e1 : String)
    (hsplit : splitIntoGroups pdf varName groupingName = some gs)
    (hgroups : gs.2 = [c1, c2])
    (hfail : mwNewProv (dropnaCol c1) (dropnaCol c2) = Except.error e1) :
    (∀ u p, mwOldProv (dropnaCol c1) (dropnaCol c2) = Except.ok (u, p) →
      (mann_whitney_test mwNewProv mwOldProv pdf varName groupingName).1 =
        Except.ok [Item.testRes "Mann-Whitney rank test" u [] none (p * 2)]) ∧
    (∀ e2, mwOldProv (dropnaCol c1) (dropnaCol c2) = Except.error e2 →
      (mann_whitney_test mwNewProv mwOldProv pdf varName groupingName).1 =
        Except.ok [Item.errText "Mann-Whitney rank test" e2]) := by
  constructor
  · intro u p hold
    unfold mann_whitney_test
    rw [hsplit]
    dsimp only
    rw [hgroups]
    dsimp only
    rw [hfail]
    dsimp only
    rw [hold]
  · intro e2 hold
    unfold mann_whitney_test
    rw [hsplit]
    dsimp only
    rw [hgroups]
    dsimp only
    rw [hfail]
    dsimp only
    rw [hold]

/-- Witness for C5: a fallback p of 3/10 is reported as 3/5, and a double
failure surfaces the second error text. -/
theorem c5_mw_fallback_witness :
    (mann_whitney_test (fun _ _ => Except.error "keyword not supported")
        (fun _ _ => Except.ok (9, 3/10))
        ⟨["v", "g"], [[some 1, some 10], [some 2, some 20]]⟩ "v" "g").1 =
      Except.ok [Item.testRes "Mann-Whitney rank test" 9 [] none (3/10 * 2)] ∧
    (mann_whitney_test (fun _ _ => Except.error "keyword not supported")
        (fun _ _ => Except.error "tied ranks")
        ⟨["v", "g"], [[some 1, some 10], [some 2, some 20]]⟩ "v" "g").1 =
      Except.ok [Item.errText "Mann-Whitney rank test" "tied ranks"] :=
  ⟨(c5_mw_fallback (fun _ _ => Except.error "keyword not supported")
      (fun _ _ => Except.ok (9, 3/10))
      ⟨["v", "g"], [[some 1, some 10], [some 2, some 20]]⟩ "v" "g"
      ([10, 20], [[some 1], [some 2]]) [some 1] [some 2] "keyword not supported"
      (by decide) rfl rfl).1 9 (3/10) rfl,
   (c5_mw_fallback (fun _ _ => Except.error "keyword not supported")
      (fun _ _ => Except.error "tied ranks")
      ⟨["v", "g"], [[some 1, some 10], [some 2, some 20]]⟩ "v" "g"
      ([10, 20], [[some 1], [some 2]]) [some 1] [some 2] "keyword not supported"
      (by decide) rfl rfl).2 "tied ranks" rfl⟩

/-- C8 (code bug): on a dataset with a missing value in one group,
`welch_t_test` hands the provider the per-group dropped samples (the trace
shows `[1, 3]` and `[2, 4]`), but the reported degrees of freedom are
computed from the pre-drop series — `n1 = 3` counts the missing row — giving
25/11, whereas the same formula on the samples after missing-value removal
gives 2. -/
theorem c8_welch_df_predrop :
    welch_t_test (fun _ _ => Except.ok (1, 1/2)) (fun q => q)
        ⟨["v", "g"], [[some 1, some 10], [none, some 10], [some 3, some 10],
          [some 2, some 20], [some 4, some 20]]⟩ "v" "g" =
      (Except.ok [Item.testRes "Welch unequal variances t-test" 1 [25/11] none (1/2)],
       [Call.welchT [1, 3] [2, 4]]) ∧
    welchDfDropped (fun q => q) [some 1, none, some 3] [some 2, some 4] = 2 ∧
    (25 : ℚ)/11 ≠ 2 := by
  have hsp : splitIntoGroups ⟨["v", "g"], [[some 1, some 10], [none, some 10], [some 3, some 10],
      [some 2, some 20], [some 4, some 20]]⟩ "v" "g" =
      some ([10, 20], [[some 1, none, some 3], [some 2, some 4]]) := by decide
  have hd1 : dropnaCol [some 1, none, some 3] = [1, 3] := by decide
  have hd2 : dropnaCol [some 2, some 4] = [2, 4] := by decide
  refine ⟨?_, ?_, by norm_num⟩
  · unfold welch_t_test
    rw [hsp]
    dsimp only
    norm_num [npStd, sqDevSum, npMean, hd1, hd2]
  · unfold welchDfDropped
    norm_num [npStd, sqDevSum, npMean, hd1, hd2]

/-- C9 (amended): `independent_t_test` reports a mean-difference point
estimate and a 95% confidence interval whose bounds are the mean difference
minus and plus `t_critical(df) * standard_error`, where the standard error
equals the pooled standard error of the spec whenever the provider's degrees
of freedom are `n1 + n2 - 2`; `welch_t_test` reports no mean-difference point
estimate and no confidence interval at all. -/
theorem c9_ci_halfwidth
    (ttestIndProv : List ℚ → List ℚ → Except String (ℚ × ℚ × ℚ))
    (tppf : ℚ → ℚ) (sqrtFn : ℚ → ℚ) (powerProv : ℕ → ℕ → ℚ)
    (pdf : Pdf) (varName groupingName : String)
    (gs : List ℚ × List (List Cell)) (c1 c2 : List Cell) (tpd : ℚ × ℚ × ℚ)
    (hsplit : splitIntoGroups pdf varName groupingName = some gs)
    (hgroups : gs.2 = [c1, c2])
    (hprov : ttestIndProv (dropnaCol c1) (dropnaCol c2) = Except.ok tpd)
    (hdf : tpd.2.2 = ((dropnaCol c1).length : ℚ) + ((dropnaCol c2).length : ℚ) - 2) :
    (independent_t_test ttestIndProv tppf sqrtFn powerProv pdf varName groupingName).1 =
      Except.ok
        [Item.confInt (npMean (dropnaCol c1) - npMean (dropnaCol c2))
          (npMean (dropnaCol c1) - npMean (dropnaCol c2) -
            tppf tpd.2.2 * specPooledSE sqrtFn (dropnaCol c1) (dropnaCol c2))
          (npMean (dropnaCol c1) - npMean (dropnaCol c2) +
            tppf tpd.2.2 * specPooledSE sqrtFn (dropnaCol c1) (dropnaCol c2)),
         Item.testRes "independent samples t-test" tpd.1 [tpd.2.2] none tpd.2.1] ∧
    (∀ (welchProv : List ℚ → List ℚ → Except String (ℚ × ℚ)) (sqrtFn' : ℚ → ℚ)
        (wpdf : Pdf) (wvar wgroup : String) (rep : Report),
      (welch_t_test welchProv sqrtFn' wpdf wvar wgroup).1 = Except.ok rep →
        hasConfInt rep = false) := by
  constructor
  · have hs : sqrtFn (2 * ((sqDevSum (dropnaCol c1) + sqDevSum (dropnaCol c2)) / tpd.2.2) /
        (2 / (1 / ((dropnaCol c1).length : ℚ) + 1 / ((dropnaCol c2).length : ℚ)))) =
        specPooledSE sqrtFn (dropnaCol c1) (dropnaCol c2) := by
      unfold specPooledSE
      refine congrArg sqrtFn ?_
      rw [hdf, div_div_eq_mul_div]
      ring
    unfold independent_t_test
    rw [hsplit]
    dsimp only
    rw [hgroups]
    dsimp only
    rw [hprov]
    dsimp only
    rw [hs]
    simp [run_power_analysis]
  · intro welchProv sqrtFn' wpdf wvar wgroup rep h
    unfold welch_t_test at h
    rcases hsp : splitIntoGroups wpdf wvar wgroup with _ | wgs <;> rw [hsp] at h
    · cases h
    · dsimp only at h
      rcases hgg : wgs.2 with _ | ⟨d1, _ | ⟨d2, _ | _⟩⟩ <;> rw [hgg] at h <;> dsimp only at h
      · cases h
      · cases h
      · rcases hw : welchProv (dropnaCol d1) (dropnaCol d2) with e | tp <;> rw [hw] at h <;>
          dsimp only at h
        · cases h
        · cases h
          rfl
      · cases h

/-- Counterexample for C9 as stated: on a plain two-group dataset
`welch_t_test` returns only the test-result line — no mean-difference point
estimate and no confidence interval appear in the output. -/
theorem c9_counterexample :
    (welch_t_test (fun _ _ => Except.ok (1, 1/2)) (fun q => q)
        ⟨["v", "g"], [[some 1, some 10], [some 3, some 10], [some 2, some 20], [some 4, some 20]]⟩
        "v" "g").1 =
      Except.ok [Item.testRes "Welch unequal variances t-test" 1 [2] none (1/2)] ∧
    hasConfInt [Item.testRes "Welch unequal variances t-test" 1 [2] none (1/2)] = false := by
  constructor
  · have hsp : splitIntoGroups ⟨["v", "g"], [[some 1, some 10], [some 3, some 10],
        [some 2, some 20], [some 4, some 20]]⟩ "v" "g" =
        some ([10, 20], [[some 1, some 3], [some 2, some 4]]) := by decide
    have hd1 : dropnaCol [some 1, some 3] = [1, 3] := by decide
    have hd2 : dropnaCol [some 2, some 4] = [2, 4] := by decide
    unfold welch_t_test
    rw [hsp]
    dsimp only
    norm_num [npStd, sqDevSum, npMean, hd1, hd2]
  · rfl

/-- Witness for C9: concrete pooled data where the reported interval is
[-7, 5] around a mean difference of -1, with critical value 3 and pooled
standard error 2. -/
theorem c9_ci_halfwidth_witness :
    (independent_t_test (fun _ _ => Except.ok (5, 1/10, 2)) (fun _ => 3) (fun q => q)
        (fun _ _ => 0)
        ⟨["v", "g"], [[some 1, some 10], [some 3, some 10], [some 2, some 20], [some 4, some 20]]⟩
        "v" "g").1 =
      Except.ok [Item.confInt (-1) (-7) 5,
        Item.testRes "independent samples t-test" 5 [2] none (1/10)] := by
  have hd1 : dropnaCol [some 1, some 3] = [1, 3] := by decide
  have hd2 : dropnaCol [some 2, some 4] = [2, 4] := by decide
  have h := (c9_ci_halfwidth (fun _ _ => Except.ok (5, 1/10, 2)) (fun _ => 3) (fun q => q)
    (fun _ _ => 0)
    ⟨["v", "g"], [[some 1, some 10], [some 3, some 10], [some 2, some 20], [some 4, some 20]]⟩
    "v" "g" ([10, 20], [[some 1, some 3], [some 2, some 4]]) [some 1, some 3] [some 2, some 4]
    (5, 1/10, 2) (by decide) rfl rfl (by rw [hd1, hd2]; norm_num)).1
  rw [h, hd1, hd2]
  norm_num [npMean, specPooledSE, sqDevSum]

/-- C4 (amended): the arity checks exist only where the source has them —
`paired_t_test` and `paired_wilcox_test` report a configuration error for any
count other than two, and `friedman_test` for fewer than two, all without any
provider call; `repeated_measures_anova`, `mcnemar_test` and `cochran_q_test`
perform no arity validation: the one-way ANOVA always invokes its numeric
routine first, McNemar with a single variable raises an `IndexError` instead
of reporting a message, and Cochran's Q calls its routine for any variable
count. -/
theorem c4_arity_validation :
    (∀ (prov : List ℚ → List ℚ → Except String (ℚ × ℚ)) (powerProv : ℕ → ℚ) (pdf : Pdf)
        (varNames : List String), varNames.length ≠ 2 →
      paired_t_test prov powerProv pdf varNames =
        (Except.ok [Item.configMsg "Paired t-test requires two variables."], [])) ∧
    (∀ (prov : List ℚ → List ℚ → Except String (ℚ × ℚ)) (pdf : Pdf)
        (varNames : List String), varNames.length ≠ 2 →
      paired_wilcox_test prov pdf varNames =
        (Except.ok [Item.configMsg "Paired Wilcoxon test requires two variables."], [])) ∧
    (∀ (prov : List (List ℚ) → Except String (ℚ × ℚ)) (pdf : Pdf)
        (varNames : List String), varNames.length < 2 →
      friedman_test prov pdf varNames =
        (Except.ok [Item.configMsg "Friedman test requires at least two variables."], [])) ∧
    (∀ (rmProv : List (List ℚ) → Except String RMNums)
        (pairProv : List (List ℚ) → Except String (List (PyStr × ℚ × ℚ)))
        (anovaRMProv : List LongRow → Except String (List (PyStr × ℚ × ℚ × ℚ × ℚ)))
        (pdf : Pdf) (varNames : List String) (rows : List (List Cell)),
      selectRows pdf varNames = some rows →
      (repeated_measures_anova rmProv pairProv anovaRMProv pdf varNames []).2.head? =
        some (Call.rmAnovaNum (dropnaRows rows))) ∧
    (∀ (prov : List Cell → List Cell → Except String (ℚ × ℚ)) (pdf : Pdf) (n : String)
        (c : List Cell), getCol pdf n = some c →
      mcnemar_test prov pdf [n] = (Except.error PyErr.indexError, [])) ∧
    (∀ (prov : List (List Cell) → Except String (ℚ × ℚ)) (pdf : Pdf) (n : String)
        (rows : List (List Cell)), selectRows pdf [n] = some rows →
      (cochran_q_test prov pdf [n]).2 = [Call.cochransQT rows]) := by
  refine ⟨?_, ?_, ?_, ?_, ?_, ?_⟩
  · intro prov powerProv pdf varNames h
    unfold paired_t_test
    rw [if_pos h]
  · intro prov pdf varNames h
    unfold paired_wilcox_test
    rw [if_pos h]
  · intro prov pdf varNames h
    unfold friedman_test
    rw [if_pos h]
  · intro rmProv pairProv anovaRMProv pdf varNames rows hsel
    have hdisp : repeated_measures_anova rmProv pairProv anovaRMProv pdf varNames [] =
        rm_oneway rmProv pairProv pdf varNames := rfl
    rw [hdisp]
    unfold rm_oneway
    rw [hsel]
    dsimp only
    rcases hrm : rmProv (dropnaRows rows) with e | r
    · rfl
    · rcases hpp : pairProv (dropnaRows rows) with e2 | pht
      all_goals repeat' split
      all_goals rfl
  · intro prov pdf n c hc
    unfold mcnemar_test
    rw [show (([n] : List String).get? 0) = some n from rfl]
    dsimp only
    rw [hc]
    dsimp only
    rw [show (([n] : List String).get? 1) = none from rfl]
  · intro prov pdf n rows hsel
    unfold cochran_q_test
    rw [hsel]
    dsimp only
    rcases hq : prov rows with e | qp
    · rfl
    · dsimp only
      rw [show (([n] : List String).get? 0) = some n from rfl]
      dsimp only
      rcases hc : getCol pdf n with _ | c <;> rfl

/-- Witness for C4: concrete instances of each arity behaviour. -/
theorem c4_arity_validation_witness :
    paired_t_test (fun _ _ => Except.ok (1, 1)) (fun _ => 0) ⟨["a"], [[some 1]]⟩ ["a"] =
      (Except.ok [Item.configMsg "Paired t-test requires two variables."], []) ∧
    paired_wilcox_test (fun _ _ => Except.ok (1, 1)) ⟨["a"], [[some 1]]⟩ ["a"] =
      (Except.ok [Item.configMsg "Paired Wilcoxon test requires two variables."], []) ∧
    friedman_test (fun _ => Except.ok (1, 1)) ⟨["a"], [[some 1]]⟩ ["a"] =
      (Except.ok [Item.configMsg "Friedman test requires at least two variables."], []) ∧
    (repeated_measures_anova (fun _ => Except.ok (⟨1, 1, 1, 1, 1, 1, 1, 1⟩ : RMNums))
        (fun _ => Except.ok []) (fun _ => Except.ok [])
        ⟨["a"], [[some 1]]⟩ ["a"] []).2.head? = some (Call.rmAnovaNum (dropnaRows [[some 1]])) ∧
    mcnemar_test (fun _ _ => Except.ok (1, 1)) ⟨["a"], [[some 1]]⟩ ["a"] =
      (Except.error PyErr.indexError, []) ∧
    (cochran_q_test (fun _ => Except.ok (1, 1)) ⟨["a"], [[some 1]]⟩ ["a"]).2 =
      [Call.cochransQT [[some 1]]] :=
  ⟨c4_arity_validation.1 _ _ _ _ (by decide),
   c4_arity_validation.2.1 _ _ _ (by decide),
   c4_arity_validation.2.2.1 _ _ _ (by decide),
   c4_arity_validation.2.2.2.1 _ _ _ _ _ [[some 1]] (by decide),
   c4_arity_validation.2.2.2.2.1 _ _ _ [some 1] (by decide),
   c4_arity_validation.2.2.2.2.2 _ _ _ [[some 1]] (by decide)⟩

/-- Counterexample for C4 as stated: `repeated_measures_anova` with a single
variable and no factors reports no configuration error and still invokes the
numeric ANOVA routine. -/
theorem c4_counterexample :
    repeated_measures_anova (fun _ => Except.ok (⟨1, 1, 1, 1, 1, 1, 1, 1⟩ : RMNums))
        (fun _ => Except.ok []) (fun _ => Except.ok []) ⟨["a"], [[some 1]]⟩ ["a"] [] =
      (Except.ok [Item.testRes "Mauchly sphericity test" 1 [] none 1, Item.decisionNoGG,
        Item.testRes "Repeated measures ANOVA" 1 [1, 1] none 1],
       [Call.rmAnovaNum [[1]]]) := by
  have hsel : selectRows ⟨["a"], [[some 1]]⟩ ["a"] = some [[some 1]] := by decide
  have hdr : dropnaRows [[some 1]] = [[1]] := by decide
  have hdisp : repeated_measures_anova (fun _ => Except.ok (⟨1, 1, 1, 1, 1, 1, 1, 1⟩ : RMNums))
      (fun _ => Except.ok []) (fun _ => Except.ok []) ⟨["a"], [[some 1]]⟩ ["a"] [] =
      rm_oneway (fun _ => Except.ok (⟨1, 1, 1, 1, 1, 1, 1, 1⟩ : RMNums))
        (fun _ => Except.ok []) ⟨["a"], [[some 1]]⟩ ["a"] := rfl
  rw [hdisp]
  unfold rm_oneway
  rw [hsel]
  dsimp only
  rw [hdr]
  norm_num

/-- C3 (amended): whenever the variable selection is well-formed and the
providers succeed, every test function returns a text result to the caller;
`mann_whitney_test` and `kruskal_wallis_test` return text even when their
providers fail (their computations sit in handlers), and
`single_case_task_extremity` converts a `ValueError` of the modified t-test
into a message; the remaining functions propagate provider exceptions, and a
malformed selection (such as `mcnemar_test` with a single variable) raises
instead of returning. -/
theorem c3_returns_text :
    (∀ (prov : List ℚ → List ℚ → Except String (ℚ × ℚ)) (powerProv : ℕ → ℚ) (pdf : Pdf)
        (varNames : List String) (rows : List (List Cell)),
      selectRows pdf varNames = some rows → (∀ x y, ∃ v, prov x y = Except.ok v) →
      returnsText (paired_t_test prov powerProv pdf varNames).1 = true) ∧
    (∀ (prov : List ℚ → List ℚ → Except String (ℚ × ℚ)) (pdf : Pdf)
        (varNames : List String) (rows : List (List Cell)),
      selectRows pdf varNames = some rows → (∀ x y, ∃ v, prov x y = Except.ok v) →
      returnsText (paired_wilcox_test prov pdf varNames).1 = true) ∧
    (∀ (prov : List Cell → List Cell → Except String (ℚ × ℚ)) (pdf : Pdf)
        (n0 n1 : String) (rest : List String) (c0 c1 : List Cell),
      getCol pdf n0 = some c0 → getCol pdf n1 = some c1 →
      (∀ a b, ∃ v, prov a b = Except.ok v) →
      returnsText (mcnemar_test prov pdf (n0 :: n1 :: rest)).1 = true) ∧
    (∀ (prov : List (List Cell) → Except String (ℚ × ℚ)) (pdf : Pdf)
        (n0 : String) (rest : List String) (rows : List (List Cell)) (c0 : List Cell),
      selectRows pdf (n0 :: rest) = some rows → getCol pdf n0 = some c0 →
      (∀ a, ∃ v, prov a = Except.ok v) →
      returnsText (cochran_q_test prov pdf (n0 :: rest)).1 = true) ∧
    (∀ (rmProv : List (List ℚ) → Except String RMNums)
        (pairProv : List (List ℚ) → Except String (List (PyStr × ℚ × ℚ)))
        (anovaRMProv : List LongRow → Except String (List (PyStr × ℚ × ℚ × ℚ × ℚ)))
        (pdf : Pdf) (varNames : List String) (rows : List (List Cell)),
      selectRows pdf varNames = some rows →
      (∀ d, ∃ v, rmProv d = Except.ok v) → (∀ d, ∃ v, pairProv d = Except.ok v) →
      returnsText (repeated_measures_anova rmProv pairProv anovaRMProv pdf varNames []).1 =
        true) ∧
    (∀ (rmProv : List (List ℚ) → Except String RMNums)
        (pairProv : List (List ℚ) → Except String (List (PyStr × ℚ × ℚ)))
        (anovaRMProv : List LongRow → Except String (List (PyStr × ℚ × ℚ × ℚ × ℚ)))
        (pdf : Pdf) (varNames : List String) (factors : List (PyStr × ℕ))
        (rows : List (List Cell)),
      factors ≠ [] → selectRows pdf varNames = some rows →
      (factors.map (fun f => f.2)).prod = varNames.length →
      (∀ l, ∃ v, anovaRMProv l = Except.ok v) →
      returnsText
        (repeated_measures_anova rmProv pairProv anovaRMProv pdf varNames factors).1 = true) ∧
    (∀ (prov : List (List ℚ) → Except String (ℚ × ℚ)) (pdf : Pdf)
        (varNames : List String) (rows : List (List Cell)),
      selectRows pdf varNames = some rows → (∀ a, ∃ v, prov a = Except.ok v) →
      returnsText (friedman_test prov pdf varNames).1 = true) ∧
    (∀ (prov : List (List ℚ) → Except String (ℚ × ℚ)) (pdf : Pdf) (v g : String)
        (gs : List ℚ × List (List Cell)),
      splitIntoGroups pdf v g = some gs → (∀ a, ∃ w, prov a = Except.ok w) →
      returnsText (levene_test prov pdf v g).1 = true) ∧
    (∀ (prov : List ℚ → List ℚ → Except String (ℚ × ℚ × ℚ)) (tppf sqrtFn : ℚ → ℚ)
        (powerProv : ℕ → ℕ → ℚ) (pdf : Pdf) (v g : String)
        (gs : List ℚ × List (List Cell)) (c1 c2 : List Cell),
      splitIntoGroups pdf v g = some gs → gs.2 = [c1, c2] →
      (∀ a b, ∃ w, prov a b = Except.ok w) →
      returnsText (independent_t_test prov tppf sqrtFn powerProv pdf v g).1 = true) ∧
    (∀ (modTProv : List Cell → List ℚ → Except SCErr (ℚ × ℚ × ℚ))
        (slopeProv : Option ℚ → Cell → Cell → List Cell → List Cell →
          Except String (ℚ × ℚ × ℚ × String))
        (pdf : Pdf) (v g : String) (nT : Option ℚ)
        (gs : List ℚ × List (List Cell)) (c1 c2 : List Cell),
      splitIntoGroups pdf v g = some gs → gs.2 = [c1, c2] →
      (∀ a b e, modTProv a b ≠ Except.error (SCErr.otherErr e)) →
      returnsText (single_case_task_extremity modTProv slopeProv pdf v g none nT).1 = true) ∧
    (∀ (modTProv : List Cell → List ℚ → Except SCErr (ℚ × ℚ × ℚ))
        (slopeProv : Option ℚ → Cell → Cell → List Cell → List Cell →
          Except String (ℚ × ℚ × ℚ × String))
        (pdf : Pdf) (v g se : String) (nT : Option ℚ)
        (gs ses : List ℚ × List (List Cell)) (cv cse : Cell) (c2 s2 : List Cell),
      splitIntoGroups pdf v g = some gs → gs.2 = [[cv], c2] →
      splitIntoGroups pdf se g = some ses → ses.2 = [[cse], s2] →
      (∀ a b c d e, ∃ w, slopeProv a b c d e = Except.ok w) →
      returnsText (single_case_task_extremity modTProv slopeProv pdf v g (some se) nT).1 =
        true) ∧
    (∀ (prov : List ℚ → List ℚ → Except String (ℚ × ℚ)) (sqrtFn : ℚ → ℚ) (pdf : Pdf)
        (v g : String) (gs : List ℚ × List (List Cell)) (c1 c2 : List Cell),
      splitIntoGroups pdf v g = some gs → gs.2 = [c1, c2] →
      (∀ a b, ∃ w, prov a b = Except.ok w) →
      returnsText (welch_t_test prov sqrtFn pdf v g).1 = true) ∧
    (∀ (p1 p2 : List ℚ → List ℚ → Except String (ℚ × ℚ)) (pdf : Pdf) (v g : String)
        (gs : List ℚ × List (List Cell)) (c1 c2 : List Cell),
      splitIntoGroups pdf v g = some gs → gs.2 = [c1, c2] →
      returnsText (mann_whitney_test p1 p2 pdf v g).1 = true) ∧
    (∀ (prov : List (ℚ × ℚ × ℚ) → Except String (List (ℚ × ℚ × ℚ))) (pdf : Pdf)
        (v g0 g1 : String) (grest : List String) (i0 i1 i2 : ℕ) (irest : List ℕ),
      (v :: g0 :: g1 :: grest).mapM (colIdx pdf) = some (i0 :: i1 :: i2 :: irest) →
      (∀ d, ∃ r0 r1 r2 r3 r4 rest, prov d = Except.ok (r0 :: r1 :: r2 :: r3 :: r4 :: rest)) →
      returnsText (two_way_anova prov pdf v (g0 :: g1 :: grest)).1 = true) ∧
    (∀ (kProv : List (List ℚ) → Except String (ℚ × ℚ))
        (dProv : List (Cell × ℚ) → Except String (List (List ℚ))) (pdf : Pdf) (v g : String)
        (gs : List ℚ × List (List Cell)) (vc gc : List Cell),
      splitIntoGroups pdf v g = some gs → getCol pdf v = some vc → getCol pdf g = some gc →
      returnsText (kruskal_wallis_test kProv dProv pdf v g).1 = true) := by
  refine ⟨?_, ?_, ?_, ?_, ?_, ?_, ?_, ?_, ?_, ?_, ?_, ?_, ?_, ?_, ?_⟩
  · intro prov powerProv pdf varNames rows hsel hprov
    unfold paired_t_test
    by_cases h2 : varNames.length ≠ 2
    · rw [if_pos h2]
      rfl
    · rw [if_neg h2, hsel]
      dsimp only
      obtain ⟨v, hv⟩ := hprov ((dropnaRows rows).map (fun r => r.getD 0 0))
        ((dropnaRows rows).map (fun r => r.getD 1 0))
      rw [hv]
      rfl
  · intro prov pdf varNames rows hsel hprov
    unfold paired_wilcox_test
    by_cases h2 : varNames.length ≠ 2
    · rw [if_pos h2]
      rfl
    · rw [if_neg h2, hsel]
      dsimp only
      obtain ⟨v, hv⟩ := hprov ((dropnaRows rows).map (fun r => r.getD 0 0))
        ((dropnaRows rows).map (fun r => r.getD 1 0))
      rw [hv]
      rfl
  · intro prov pdf n0 n1 rest c0 c1 hc0 hc1 hprov
    unfold mcnemar_test
    rw [show ((n0 :: n1 :: rest).get? 0) = some n0 from rfl]
    dsimp only
    rw [hc0]
    dsimp only
    rw [show ((n0 :: n1 :: rest).get? 1) = some n1 from rfl]
    dsimp only
    rw [hc1]
    dsimp only
    obtain ⟨v, hv⟩ := hprov c0 c1
    rw [hv]
    rfl
  · intro prov pdf n0 rest rows c0 hsel hc0 hprov
    unfold cochran_q_test
    rw [hsel]
    dsimp only
    obtain ⟨v, hv⟩ := hprov rows
    rw [hv]
    dsimp only
    rw [show ((n0 :: rest).get? 0) = some n0 from rfl]
    dsimp only
    rw [hc0]
    rfl
  · intro rmProv pairProv anovaRMProv pdf varNames rows hsel hrm' hpair'
    obtain ⟨r, hrm⟩ := hrm' (dropnaRows rows)
    obtain ⟨pht, hpair⟩ := hpair' (dropnaRows rows)
    have hdisp : repeated_measures_anova rmProv pairProv anovaRMProv pdf varNames [] =
        rm_oneway rmProv pairProv pdf varNames := rfl
    rw [hdisp, rm_oneway_ok rmProv pairProv pdf varNames rows r pht hsel hrm hpair]
    rfl
  · intro rmProv pairProv anovaRMProv pdf varNames factors rows hfac hsel hprod hprov
    obtain ⟨tbl, htbl⟩ := hprov (buildLongTable factors (dropnaIdx rows))
    have hfe : factors.isEmpty = false := by
      cases factors
      · exact absurd rfl hfac
      · rfl
    have hlen : ¬ (tempVarNames factors).length ≠ varNames.length := by
      rw [length_tempVarNames, hprod]
      exact fun h => h rfl
    unfold repeated_measures_anova rm_multiway
    rw [hfe, hsel]
    simp only [Bool.false_eq_true, if_false]
    rw [if_neg hlen]
    try dsimp only
    rw [htbl]
    rfl
  · intro prov pdf varNames rows hsel hprov
    unfold friedman_test
    by_cases h2 : varNames.length < 2
    · rw [if_pos h2]
      rfl
    · rw [if_neg h2, hsel]
      dsimp only
      obtain ⟨v, hv⟩ := hprov ((List.range varNames.length).map
        (fun k => (dropnaRows rows).map (fun r => r.getD k 0)))
      rw [hv]
      rfl
  · intro prov pdf v g gs hsplit hprov
    unfold levene_test
    rw [hsplit]
    dsimp only
    obtain ⟨w, hw⟩ := hprov (gs.2.map dropnaCol)
    rw [hw]
    rfl
  · intro prov tppf sqrtFn powerProv pdf v g gs c1 c2 hsplit hgroups hprov
    unfold independent_t_test
    rw [hsplit]
    dsimp only
    rw [hgroups]
    dsimp only
    obtain ⟨w, hw⟩ := hprov (dropnaCol c1) (dropnaCol c2)
    rw [hw]
    rfl
  · intro modTProv slopeProv pdf v g nT gs c1 c2 hsplit hgroups hprov
    unfold single_case_task_extremity
    rw [hsplit]
    dsimp only
    rw [hgroups]
    dsimp only
    rcases hm : modTProv (if c1.length = 1 then c1 else c2)
        (if c1.length = 1 then dropnaCol c2 else dropnaCol c1) with e | w
    · cases e with
      | valueErr => rfl
      | otherErr e' => exact absurd hm (hprov _ _ e')
    · rfl
  · intro modTProv slopeProv pdf v g se nT gs ses cv cse c2 s2 hsplitv hgv hsplits hgs hprov
    unfold single_case_task_extremity
    rw [hsplitv]
    dsimp only
    rw [hgv]
    dsimp only
    rw [hsplits]
    dsimp only
    rw [hgs]
    dsimp only
    simp only [if_pos (show ([cv] : List Cell).length = 1 from rfl)]
    rw [show (([cv] : List Cell).get? 0) = some cv from rfl,
        show (([cse] : List Cell).get? 0) = some cse from rfl]
    dsimp only
    obtain ⟨w, hw⟩ := hprov nT cv cse c2 s2
    rw [hw]
    rfl
  · intro prov sqrtFn pdf v g gs c1 c2 hsplit hgroups hprov
    unfold welch_t_test
    rw [hsplit]
    dsimp only
    rw [hgroups]
    dsimp only
    obtain ⟨w, hw⟩ := hprov (dropnaCol c1) (dropnaCol c2)
    rw [hw]
    rfl
  · intro p1 p2 pdf v g gs c1 c2 hsplit hgroups
    unfold mann_whitney_test
    rw [hsplit]
    dsimp only
    rw [hgroups]
    dsimp only
    rcases h1 : p1 (dropnaCol c1) (dropnaCol c2) with e | w
    · rcases h2 : p2 (dropnaCol c1) (dropnaCol c2) with e2 | w2 <;> rfl
    · rfl
  · intro prov pdf v g0 g1 grest i0 i1 i2 irest hidx hprov
    unfold two_way_anova
    rw [hidx]
    dsimp only
    rw [show ((g0 :: g1 :: grest).get? 0) = some g0 from rfl,
        show ((g0 :: g1 :: grest).get? 1) = some g1 from rfl]
    dsimp only
    rw [show ((i0 :: i1 :: i2 :: irest).get? 0) = some i0 from rfl,
        show ((i0 :: i1 :: i2 :: irest).get? 1) = some i1 from rfl,
        show ((i0 :: i1 :: i2 :: irest).get? 2) = some i2 from rfl]
    dsimp only
    obtain ⟨r0, r1, r2, r3, r4, rest, hr⟩ := hprov
      ((pdf.rows.filter (fun r => (i0 :: i1 :: i2 :: irest).all
          (fun i => (r.getD i none).isSome))).map (fun r =>
        ((r.getD i0 none).getD 0, (r.getD i1 none).getD 0, (r.getD i2 none).getD 0)))
    rw [hr]
    dsimp only
    rw [show ((r0 :: r1 :: r2 :: r3 :: r4 :: rest).get? 1) = some r1 from rfl,
        show ((r0 :: r1 :: r2 :: r3 :: r4 :: rest).get? 2) = some r2 from rfl,
        show ((r0 :: r1 :: r2 :: r3 :: r4 :: rest).get? 3) = some r3 from rfl,
        show ((r0 :: r1 :: r2 :: r3 :: r4 :: rest).get? 4) = some r4 from rfl]
    rfl
  · intro kProv dProv pdf v g gs vc gc hsplit hvc hgc
    unfold kruskal_wallis_test
    rw [hsplit]
    dsimp only
    rcases hk : kProv (gs.2.map dropnaCol) with e | hp
    · rfl
    · rw [hvc, hgc]
      dsimp only
      split
      · rcases hd : dProv ((vc.zip gc).filterMap (fun p => p.2.map (fun q => (p.1, q)))) with
          e2 | tbl <;> (try rw [hd]) <;> rfl
      · rfl

/-- Witness for C3: concrete calls of every test function return text,
including Mann-Whitney and Kruskal-Wallis under failing providers. -/
theorem c3_returns_text_witness :
    returnsText (paired_t_test (fun _ _ => Except.ok (1, 1)) (fun _ => 0)
      ⟨["a", "b", "g"], [[some 1, some 2, some 10], [some 3, some 4, some 20]]⟩
      ["a", "b"]).1 = true ∧
    returnsText (paired_wilcox_test (fun _ _ => Except.ok (1, 1))
      ⟨["a", "b", "g"], [[some 1, some 2, some 10], [some 3, some 4, some 20]]⟩
      ["a", "b"]).1 = true ∧
    returnsText (mcnemar_test (fun _ _ => Except.ok (1, 1))
      ⟨["a", "b", "g"], [[some 1, some 2, some 10], [some 3, some 4, some 20]]⟩
      ["a", "b"]).1 = true ∧
    returnsText (cochran_q_test (fun _ => Except.ok (1, 1))
      ⟨["a", "b", "g"], [[some 1, some 2, some 10], [some 3, some 4, some 20]]⟩
      ["a", "b"]).1 = true ∧
    returnsText (repeated_measures_anova (fun _ => Except.ok (⟨1, 1, 1, 1, 1, 1, 1, 1⟩ : RMNums))
      (fun _ => Except.ok []) (fun _ => Except.ok [])
      ⟨["a", "b", "g"], [[some 1, some 2, some 10], [some 3, some 4, some 20]]⟩
      ["a", "b"] []).1 = true ∧
    returnsText (repeated_measures_anova (fun _ => Except.ok (⟨1, 1, 1, 1, 1, 1, 1, 1⟩ : RMNums))
      (fun _ => Except.ok []) (fun _ => Except.ok [])
      ⟨["a", "b", "g"], [[some 1, some 2, some 10], [some 3, some 4, some 20]]⟩
      ["a", "b"] [(['A'], 2)]).1 = true ∧
    returnsText (friedman_test (fun _ => Except.ok (1, 1))
      ⟨["a", "b", "g"], [[some 1, some 2, some 10], [some 3, some 4, some 20]]⟩
      ["a", "b"]).1 = true ∧
    returnsText (levene_test (fun _ => Except.ok (1, 1))
      ⟨["a", "b", "g"], [[some 1, some 2, some 10], [some 3, some 4, some 20]]⟩
      "a" "g").1 = true ∧
    returnsText (independent_t_test (fun _ _ => Except.ok (1, 1, 1)) (fun q => q) (fun q => q)
      (fun _ _ => 0)
      ⟨["a", "b", "g"], [[some 1, some 2, some 10], [some 3, some 4, some 20]]⟩
      "a" "g").1 = true ∧
    returnsText (single_case_task_extremity (fun _ _ => Except.ok (1, 1, 1))
      (fun _ _ _ _ _ => Except.ok (1, 1, 1, "t"))
      ⟨["a", "b", "g"], [[some 1, some 2, some 10], [some 3, some 4, some 20]]⟩
      "a" "g" none none).1 = true ∧
    returnsText (single_case_task_extremity (fun _ _ => Except.ok (1, 1, 1))
      (fun _ _ _ _ _ => Except.ok (1, 1, 1, "t"))
      ⟨["a", "b", "g"], [[some 1, some 2, some 10], [some 3, some 4, some 20]]⟩
      "a" "g" (some "b") none).1 = true ∧
    returnsText (welch_t_test (fun _ _ => Except.ok (1, 1)) (fun q => q)
      ⟨["a", "b", "g"], [[some 1, some 2, some 10], [some 3, some 4, some 20]]⟩
      "a" "g").1 = true ∧
    returnsText (mann_whitney_test (fun _ _ => Except.error "no keyword")
      (fun _ _ => Except.error "tied")
      ⟨["a", "b", "g"], [[some 1, some 2, some 10], [some 3, some 4, some 20]]⟩
      "a" "g").1 = true ∧
    returnsText (two_way_anova (fun _ => Except.ok [(1, 1, 1), (1, 1, 1), (1, 1, 1), (1, 1, 1),
      (1, 1, 1)])
      ⟨["a", "b", "g"], [[some 1, some 2, some 10], [some 3, some 4, some 20]]⟩
      "a" ["b", "g"]).1 = true ∧
    returnsText (kruskal_wallis_test (fun _ => Except.error "boom") (fun _ => Except.error "boom2")
      ⟨["a", "b", "g"], [[some 1, some 2, some 10], [some 3, some 4, some 20]]⟩
      "a" "g").1 = true :=
  ⟨c3_returns_text.1 _ _ _ _ [[some 1, some 2], [some 3, some 4]] (by decide)
      (fun x y => ⟨(1, 1), rfl⟩),
   c3_returns_text.2.1 _ _ _ [[some 1, some 2], [some 3, some 4]] (by decide)
      (fun x y => ⟨(1, 1), rfl⟩),
   c3_returns_text.2.2.1 _ _ "a" "b" [] [some 1, some 3] [some 2, some 4] (by decide) (by decide)
      (fun a b => ⟨(1, 1), rfl⟩),
   c3_returns_text.2.2.2.1 _ _ "a" ["b"] [[some 1, some 2], [some 3, some 4]] [some 1, some 3]
      (by decide) (by decide) (fun a => ⟨(1, 1), rfl⟩),
   c3_returns_text.2.2.2.2.1 _ _ _ _ _ [[some 1, some 2], [some 3, some 4]] (by decide)
      (fun d => ⟨⟨1, 1, 1, 1, 1, 1, 1, 1⟩, rfl⟩) (fun d => ⟨[], rfl⟩),
   c3_returns_text.2.2.2.2.2.1 _ _ _ _ _ [(['A'], 2)] [[some 1, some 2], [some 3, some 4]]
      (by decide) (by decide) (by decide) (fun l => ⟨[], rfl⟩),
   c3_returns_text.2.2.2.2.2.2.1 _ _ _ [[some 1, some 2], [some 3, some 4]] (by decide)
      (fun a => ⟨(1, 1), rfl⟩),
   c3_returns_text.2.2.2.2.2.2.2.1 _ _ "a" "g" ([10, 20], [[some 1], [some 3]]) (by decide)
      (fun a => ⟨(1, 1), rfl⟩),
   c3_returns_text.2.2.2.2.2.2.2.2.1 _ _ _ _ _ "a" "g" ([10, 20], [[some 1], [some 3]])
      [some 1] [some 3] (by decide) rfl (fun a b => ⟨(1, 1, 1), rfl⟩),
   c3_returns_text.2.2.2.2.2.2.2.2.2.1 _ _ _ "a" "g" none ([10, 20], [[some 1], [some 3]])
      [some 1] [some 3] (by decide) rfl (fun a b e h => Except.noConfusion h),
   c3_returns_text.2.2.2.2.2.2.2.2.2.2.1 _ _ _ "a" "g" "b" none
      ([10, 20], [[some 1], [some 3]]) ([10, 20], [[some 2], [some 4]]) (some 1) (some 2)
      [some 3] [some 4] (by decide) rfl (by decide) rfl (fun a b c d e => ⟨(1, 1, 1, "t"), rfl⟩),
   c3_returns_text.2.2.2.2.2.2.2.2.2.2.2.1 _ _ _ "a" "g" ([10, 20], [[some 1], [some 3]])
      [some 1] [some 3] (by decide) rfl (fun a b => ⟨(1, 1), rfl⟩),
   c3_returns_text.2.2.2.2.2.2.2.2.2.2.2.2.1 _ _ _ "a" "g"
      ([10, 20], [[some 1], [some 3]]) [some 1] [some 3] (by decide) rfl,
   c3_returns_text.2.2.2.2.2.2.2.2.2.2.2.2.2.1 _ _ "a" "b" "g" [] 0 1 2 [] (by decide)
      (fun d => ⟨(1, 1, 1), (1, 1, 1), (1, 1, 1), (1, 1, 1), (1, 1, 1), [], rfl⟩),
   c3_returns_text.2.2.2.2.2.2.2.2.2.2.2.2.2.2 _ _ _ "a" "g"
      ([10, 20], [[some 1], [some 3]]) [some 1, some 3] [some 10, some 20]
      (by decide) (by decide) (by decide)⟩

/-- Counterexample for C3 as stated: `mcnemar_test` with a single selected
variable does not return a text result — the unchecked indexing of the second
variable name raises an `IndexError` that propagates to the caller. -/
theorem c3_counterexample :
    returnsText (mcnemar_test (fun _ _ => Except.ok (1, 1))
      ⟨["a"], [[some 1]]⟩ ["a"]).1 = false := by decide

/-! Lemmas for the p-value range invariant: each embedded function passes
provider p-values through to its report unchanged, except the Mann-Whitney
fallback, which doubles one. -/

theorem c6aux_paired_t
    (prov : List ℚ → List ℚ → Except String (ℚ × ℚ)) (powerProv : ℕ → ℚ) (pdf : Pdf)
    (varNames : List String)
    (hC : ∀ x y v, prov x y = Except.ok v → 0 ≤ v.2 ∧ v.2 ≤ 1) :
    ∀ rep, (paired_t_test prov powerProv pdf varNames).1 = Except.ok rep →
      ∀ q ∈ reportPs rep, 0 ≤ q ∧ q ≤ 1 := by
  intro rep h q hq
  unfold paired_t_test at h
  by_cases h2 : varNames.length ≠ 2
  · rw [if_pos h2] at h
    cases h
    simp [reportPs, itemPs] at hq
  · rw [if_neg h2] at h
    rcases hsel : selectRows pdf varNames with _ | rows <;> rw [hsel] at h
    · cases h
    · dsimp only at h
      rcases hv : prov ((dropnaRows rows).map (fun r => r.getD 0 0))
          ((dropnaRows rows).map (fun r => r.getD 1 0)) with e | v <;> try rw [hv] at h
      · cases h
      · cases h
        simp [reportPs, itemPs, run_power_analysis] at hq
        subst hq
        exact hC _ _ v hv

theorem c6aux_wilcox
    (prov : List ℚ → List ℚ → Except String (ℚ × ℚ)) (pdf : Pdf) (varNames : List String)
    (hC : ∀ x y v, prov x y = Except.ok v → 0 ≤ v.2 ∧ v.2 ≤ 1) :
    ∀ rep, (paired_wilcox_test prov pdf varNames).1 = Except.ok rep →
      ∀ q ∈ reportPs rep, 0 ≤ q ∧ q ≤ 1 := by
  intro rep h q hq
  unfold paired_wilcox_test at h
  by_cases h2 : varNames.length ≠ 2
  · rw [if_pos h2] at h
    cases h
    simp [reportPs, itemPs] at hq
  · rw [if_neg h2] at h
    rcases hsel : selectRows pdf varNames with _ | rows <;> rw [hsel] at h
    · cases h
    · dsimp only at h
      rcases hv : prov ((dropnaRows rows).map (fun r => r.getD 0 0))
          ((dropnaRows rows).map (fun r => r.getD 1 0)) with e | v <;> try rw [hv] at h
      · cases h
      · cases h
        simp only [reportPs, itemPs, List.flatMap_cons, List.flatMap_nil, List.append_nil,
          List.mem_singleton] at hq
        subst hq
        exact hC _ _ v hv

theorem c6aux_mcnemar
    (prov : List Cell → List Cell → Except String (ℚ × ℚ)) (pdf : Pdf)
    (varNames : List String)
    (hC : ∀ a b v, prov a b = Except.ok v → 0 ≤ v.2 ∧ v.2 ≤ 1) :
    ∀ rep, (mcnemar_test prov pdf varNames).1 = Except.ok rep →
      ∀ q ∈ reportPs rep, 0 ≤ q ∧ q ≤ 1 := by
  intro rep h q hq
  unfold mcnemar_test at h
  rcases h0 : varNames.get? 0 with _ | n0 <;> rw [h0] at h
  · cases h
  · dsimp only at h
    rcases hc0 : getCol pdf n0 with _ | c0 <;> rw [hc0] at h
    · cases h
    · dsimp only at h
      rcases h1 : varNames.get? 1 with _ | n1 <;> rw [h1] at h
      · cases h
      · dsimp only at h
        rcases hc1 : getCol pdf n1 with _ | c1 <;> rw [hc1] at h
        · cases h
        · dsimp only at h
          rcases hv : prov c0 c1 with e | v <;> try rw [hv] at h
          · cases h
          · cases h
            simp only [reportPs, itemPs, List.flatMap_cons, List.flatMap_nil, List.append_nil,
              List.mem_singleton] at hq
            subst hq
            exact hC _ _ v hv

theorem c6aux_cochran
    (prov : List (List Cell) → Except String (ℚ × ℚ)) (pdf : Pdf) (varNames : List String)
    (hC : ∀ a v, prov a = Except.ok v → 0 ≤ v.2 ∧ v.2 ≤ 1) :
    ∀ rep, (cochran_q_test prov pdf varNames).1 = Except.ok rep →
      ∀ q ∈ reportPs rep, 0 ≤ q ∧ q ≤ 1 := by
  intro rep h q hq
  unfold cochran_q_test at h
  rcases hsel : selectRows pdf varNames with _ | rows <;> rw [hsel] at h
  · cases h
  · dsimp only at h
    rcases hv : prov rows with e | v <;> try rw [hv] at h
    · cases h
    · dsimp only at h
      rcases h0 : varNames.get? 0 with _ | n0 <;> rw [h0] at h
      · cases h
      · dsimp only at h
        rcases hc0 : getCol pdf n0 with _ | c0 <;> rw [hc0] at h
        · cases h
        · cases h
          simp only [reportPs, itemPs, List.flatMap_cons, List.flatMap_nil, List.append_nil,
            List.mem_singleton] at hq
          subst hq
          exact hC _ v hv

theorem c6aux_friedman
    (prov : List (List ℚ) → Except String (ℚ × ℚ)) (pdf : Pdf) (varNames : List String)
    (hC : ∀ a v, prov a = Except.ok v → 0 ≤ v.2 ∧ v.2 ≤ 1) :
    ∀ rep, (friedman_test prov pdf varNames).1 = Except.ok rep →
      ∀ q ∈ reportPs rep, 0 ≤ q ∧ q ≤ 1 := by
  intro rep h q hq
  unfold friedman_test at h
  by_cases h2 : varNames.length < 2
  · rw [if_pos h2] at h
    cases h
    simp [reportPs, itemPs] at hq
  · rw [if_neg h2] at h
    rcases hsel : selectRows pdf varNames with _ | rows <;> rw [hsel] at h
    · cases h
    · dsimp only at h
      rcases hv : prov ((List.range varNames.length).map
          (fun k => (dropnaRows rows).map (fun r => r.getD k 0))) with e | v <;>
        try rw [hv] at h
      · cases h
      · cases h
        simp only [reportPs, itemPs, List.flatMap_cons, List.flatMap_nil, List.append_nil,
          List.mem_singleton] at hq
        subst hq
        exact hC _ v hv

theorem c6aux_levene
    (prov : List (List ℚ) → Except String (ℚ × ℚ)) (pdf : Pdf) (v g : String)
    (hC : ∀ a w, prov a = Except.ok w → 0 ≤ w.2 ∧ w.2 ≤ 1) :
    ∀ pr, (levene_test prov pdf v g).1 = Except.ok pr →
      ∀ q ∈ reportPs pr.2, 0 ≤ q ∧ q ≤ 1 := by
  intro pr h q hq
  unfold levene_test at h
  rcases hsp : splitIntoGroups pdf v g with _ | gs <;> rw [hsp] at h
  · cases h
  · dsimp only at h
    rcases hv : prov (gs.2.map dropnaCol) with e | w <;> try rw [hv] at h
    · cases h
    · cases h
      simp only [reportPs, itemPs, List.flatMap_cons, List.flatMap_nil, List.append_nil,
        List.mem_singleton] at hq
      subst hq
      exact hC _ w hv

theorem c6aux_independent_t
    (prov : List ℚ → List ℚ → Except String (ℚ × ℚ × ℚ)) (tppf sqrtFn : ℚ → ℚ)
    (powerProv : ℕ → ℕ → ℚ) (pdf : Pdf) (v g : String)
    (hC : ∀ a b w, prov a b = Except.ok w → 0 ≤ w.2.1 ∧ w.2.1 ≤ 1) :
    ∀ rep, (independent_t_test prov tppf sqrtFn powerProv pdf v g).1 = Except.ok rep →
      ∀ q ∈ reportPs rep, 0 ≤ q ∧ q ≤ 1 := by
  intro rep h q hq
  unfold independent_t_test at h
  rcases hsp : splitIntoGroups pdf v g with _ | gs <;> rw [hsp] at h
  · cases h
  · dsimp only at h
    rcases hgg : gs.2 with _ | ⟨c1, _ | ⟨c2, _ | _⟩⟩ <;> rw [hgg] at h <;> dsimp only at h
    · cases h
    · cases h
    · rcases hv : prov (dropnaCol c1) (dropnaCol c2) with e | w <;> try rw [hv] at h
      · cases h
      · cases h
        simp [reportPs, itemPs, run_power_analysis] at hq
        subst hq
        exact hC _ _ w hv
    · cases h

theorem c6aux_single_case
    (modTProv : List Cell → List ℚ → Except SCErr (ℚ × ℚ × ℚ))
    (slopeProv : Option ℚ → Cell → Cell → List Cell → List Cell →
      Except String (ℚ × ℚ × ℚ × String))
    (pdf : Pdf) (v g : String) (seName : Option String) (nT : Option ℚ)
    (hMT : ∀ a b w, modTProv a b = Except.ok w → 0 ≤ w.2.1 ∧ w.2.1 ≤ 1)
    (hSL : ∀ a b c d e w, slopeProv a b c d e = Except.ok w → 0 ≤ w.2.2.1 ∧ w.2.2.1 ≤ 1) :
    ∀ rep, (single_case_task_extremity modTProv slopeProv pdf v g seName nT).1 =
        Except.ok rep →
      ∀ q ∈ reportPs rep, 0 ≤ q ∧ q ≤ 1 := by
  intro rep h q hq
  unfold single_case_task_extremity at h
  rcases hsp : splitIntoGroups pdf v g with _ | gs <;> rw [hsp] at h
  · cases h
  · dsimp only at h
    rcases hgg : gs.2 with _ | ⟨c1, _ | ⟨c2, _ | _⟩⟩ <;> rw [hgg] at h <;> dsimp only at h
    · cases h
    · cases h
    · rcases seName with _ | seN <;> dsimp only at h
      · rcases hv : modTProv (if c1.length = 1 then c1 else c2)
            (if c1.length = 1 then dropnaCol c2 else dropnaCol c1) with e | w <;>
          try rw [hv] at h
        · rcases e with _ | e'
          · cases h
            simp [reportPs, itemPs] at hq
          · cases h
        · cases h
          simp [reportPs, itemPs] at hq
          subst hq
          exact hMT _ _ w hv
      · rcases hsps : splitIntoGroups pdf seN g with _ | ses <;> rw [hsps] at h
        · cases h
        · dsimp only at h
          rcases hss : ses.2 with _ | ⟨s1, _ | ⟨s2, _ | _⟩⟩ <;> rw [hss] at h <;> dsimp only at h
          · cases h
          · cases h
          · rcases hpr : (if c1.length = 1 then (c1.get? 0, s1.get? 0)
                else (c2.get? 0, s2.get? 0)) with ⟨pc, ps⟩
            rw [hpr] at h
            rcases pc with _ | cv <;> rcases ps with _ | cse <;> dsimp only at h
            · cases h
            · cases h
            · cases h
            · rcases hv : slopeProv nT cv cse (if c1.length = 1 then c2 else c1)
                  (if c1.length = 1 then s2 else s1) with e | w <;> try rw [hv] at h
              · cases h
              · cases h
                simp [reportPs, itemPs] at hq
                subst hq
                exact hSL _ _ _ _ _ w hv
          · cases h
    · cases h

theorem c6aux_welch
    (prov : List ℚ → List ℚ → Except String (ℚ × ℚ)) (sqrtFn : ℚ → ℚ) (pdf : Pdf)
    (v g : String)
    (hC : ∀ a b w, prov a b = Except.ok w → 0 ≤ w.2 ∧ w.2 ≤ 1) :
    ∀ rep, (welch_t_test prov sqrtFn pdf v g).1 = Except.ok rep →
      ∀ q ∈ reportPs rep, 0 ≤ q ∧ q ≤ 1 := by
  intro rep h q hq
  unfold welch_t_test at h
  rcases hsp : splitIntoGroups pdf v g with _ | gs <;> rw [hsp] at h
  · cases h
  · dsimp only at h
    rcases hgg : gs.2 with _ | ⟨c1, _ | ⟨c2, _ | _⟩⟩ <;> rw [hgg] at h <;> dsimp only at h
    · cases h
    · cases h
    · rcases hv : prov (dropnaCol c1) (dropnaCol c2) with e | w <;> try rw [hv] at h
      · cases h
      · cases h
        simp [reportPs, itemPs] at hq
        subst hq
        exact hC _ _ w hv
    · cases h

theorem c6aux_two_way
    (prov : List (ℚ × ℚ × ℚ) → Except String (List (ℚ × ℚ × ℚ))) (pdf : Pdf)
    (v : String) (gnames : List String)
    (hC : ∀ d tbl, prov d = Except.ok tbl → ∀ row ∈ tbl, 0 ≤ row.2.2 ∧ row.2.2 ≤ 1) :
    ∀ rep, (two_way_anova prov pdf v gnames).1 = Except.ok rep →
      ∀ q ∈ reportPs rep, 0 ≤ q ∧ q ≤ 1 := by
  intro rep h q hq
  unfold two_way_anova at h
  rcases hix : (v :: gnames).mapM (colIdx pdf) with _ | idxs <;> rw [hix] at h
  · cases h
  · try dsimp only at h
    rcases hg0 : gnames.get? 0 with _ | g0 <;> rw [hg0] at h
    · cases h
    · try dsimp only at h
      rcases hg1 : gnames.get? 1 with _ | g1 <;> rw [hg1] at h
      · cases h
      · try dsimp only at h
        rcases hi0 : idxs.get? 0 with _ | i0 <;> rw [hi0] at h
        · cases h
        · try dsimp only at h
          rcases hi1 : idxs.get? 1 with _ | i1 <;> rw [hi1] at h
          · cases h
          · try dsimp only at h
            rcases hi2 : idxs.get? 2 with _ | i2 <;> rw [hi2] at h
            · cases h
            · try dsimp only at h
              rcases hv : prov ((pdf.rows.filter (fun r => idxs.all
                  (fun i => (r.getD i none).isSome))).map (fun r =>
                    ((r.getD i0 none).getD 0, (r.getD i1 none).getD 0,
                     (r.getD i2 none).getD 0))) with e | tbl <;> try rw [hv] at h
              · cases h
              · try dsimp only at h
                rcases ht1 : tbl.get? 1 with _ | r1 <;> rw [ht1] at h
                · cases h
                · try dsimp only at h
                  rcases ht2 : tbl.get? 2 with _ | r2 <;> rw [ht2] at h
                  · cases h
                  · try dsimp only at h
                    rcases ht3 : tbl.get? 3 with _ | r3 <;> rw [ht3] at h
                    · cases h
                    · try dsimp only at h
                      rcases ht4 : tbl.get? 4 with _ | r4 <;> rw [ht4] at h
                      · cases h
                      · cases h
                        simp [reportPs, itemPs] at hq
                        rcases hq with h1 | h1 | h1 <;> subst h1
                        · exact hC _ tbl hv r1 (List.get?_mem ht1)
                        · exact hC _ tbl hv r2 (List.get?_mem ht2)
                        · exact hC _ tbl hv r3 (List.get?_mem ht3)

theorem c6aux_rm_multiway
    (rmProv : List (List ℚ) → Except String RMNums)
    (pairProv : List (List ℚ) → Except String (List (PyStr × ℚ × ℚ)))
    (anovaRMProv : List LongRow → Except String (List (PyStr × ℚ × ℚ × ℚ × ℚ)))
    (pdf : Pdf) (varNames : List String) (factors : List (PyStr × ℕ))
    (hfac : factors ≠ [])
    (hC : ∀ l tbl, anovaRMProv l = Except.ok tbl →
      ∀ row ∈ tbl, 0 ≤ row.2.2.2.2 ∧ row.2.2.2.2 ≤ 1) :
    ∀ rep, (repeated_measures_anova rmProv pairProv anovaRMProv pdf varNames factors).1 =
        Except.ok rep →
      ∀ q ∈ reportPs rep, 0 ≤ q ∧ q ≤ 1 := by
  intro rep h q hq
  have hfe : factors.isEmpty = false := by
    cases factors
    · exact absurd rfl hfac
    · rfl
  unfold repeated_measures_anova rm_multiway at h
  rw [hfe] at h
  simp only [Bool.false_eq_true, if_false] at h
  rcases hsel : selectRows pdf varNames with _ | rows <;> rw [hsel] at h
  · cases h
  · dsimp only at h
    by_cases hlen : (tempVarNames factors).length ≠ varNames.length
    · rw [if_pos hlen] at h
      cases h
    · rw [if_neg hlen] at h
      try dsimp only at h
      rcases hv : anovaRMProv (buildLongTable factors (dropnaIdx rows)) with e | tbl <;>
        try rw [hv] at h
      · cases h
      · cases h
        simp only [reportPs, itemPs, List.flatMap_map] at hq
        rw [List.mem_flatMap] at hq
        obtain ⟨row, hrow, hqq⟩ := hq
        have : q = row.2.2.2.2 := by simpa using hqq
        subst this
        exact hC _ tbl hv row hrow

theorem mem_insertByLabel (y : PyStr × ℚ × ℚ) (l : List (PyStr × ℚ × ℚ)) (x : PyStr × ℚ × ℚ)
    (h : x ∈ insertByLabel y l) : x = y ∨ x ∈ l := by
  induction l with
  | nil => simpa [insertByLabel] using h
  | cons z zs ih =>
    unfold insertByLabel at h
    split at h
    · rcases List.mem_cons.mp h with h1 | h1
      · exact Or.inl h1
      · exact Or.inr h1
    · rcases List.mem_cons.mp h with h1 | h1
      · exact Or.inr (List.mem_cons.mpr (Or.inl h1))
      · rcases ih h1 with h2 | h2
        · exact Or.inl h2
        · exact Or.inr (List.mem_cons.mpr (Or.inr h2))

theorem mem_sortByLabel (l : List (PyStr × ℚ × ℚ)) (x : PyStr × ℚ × ℚ)
    (h : x ∈ sortByLabel l) : x ∈ l := by
  induction l with
  | nil => simp [sortByLabel] at h
  | cons z zs ih =>
    have hz : sortByLabel (z :: zs) = insertByLabel z (sortByLabel zs) := rfl
    rw [hz] at h
    rcases mem_insertByLabel z (sortByLabel zs) x h with h1 | h1
    · exact h1 ▸ List.mem_cons_self _ _
    · exact List.mem_cons_of_mem _ (ih h1)

theorem c6aux_rm_oneway
    (rmProv : List (List ℚ) → Except String RMNums)
    (pairProv : List (List ℚ) → Except String (List (PyStr × ℚ × ℚ)))
    (anovaRMProv : List LongRow → Except String (List (PyStr × ℚ × ℚ × ℚ × ℚ)))
    (pdf : Pdf) (varNames : List String)
    (hRM : ∀ d r, rmProv d = Except.ok r →
      (0 ≤ r.pw ∧ r.pw ≤ 1) ∧ (0 ≤ r.pf ∧ r.pf ≤ 1) ∧ (0 ≤ r.pGG ∧ r.pGG ≤ 1))
    (hPair : ∀ d rows, pairProv d = Except.ok rows →
      ∀ row ∈ rows, 0 ≤ row.2.2 ∧ row.2.2 ≤ 1) :
    ∀ rep, (repeated_measures_anova rmProv pairProv anovaRMProv pdf varNames []).1 =
        Except.ok rep →
      ∀ q ∈ reportPs rep, 0 ≤ q ∧ q ≤ 1 := by
  intro rep h q hq
  have hd : repeated_measures_anova rmProv pairProv anovaRMProv pdf varNames [] =
      rm_oneway rmProv pairProv pdf varNames := rfl
  rw [hd] at h
  unfold rm_oneway at h
  rcases hsel : selectRows pdf varNames with _ | rows <;> rw [hsel] at h
  · cases h
  · dsimp only at h
    rcases hrm : rmProv (dropnaRows rows) with e | r <;> try rw [hrm] at h
    · cases h
    · dsimp only at h
      have hr := hRM _ r hrm
      by_cases hpw : r.pw < 1/20 <;> simp only [if_pos, if_neg, hpw, if_true, if_false] at h
      · by_cases hgate : r.pGG < 1/20
        · rw [if_pos hgate] at h
          rcases hpp : pairProv (dropnaRows rows) with e2 | pht <;> try rw [hpp] at h
          · cases h
          · cases h
            simp [reportPs, itemPs] at hq
            rcases hq with h1 | h1 | h1
            · subst h1; exact hr.1
            · subst h1; exact hr.2.2
            · obtain ⟨a, b, hmem⟩ := h1
              exact hPair _ pht hpp (a, b, q) (mem_sortByLabel _ _ hmem)
        · rw [if_neg hgate] at h
          cases h
          simp [reportPs, itemPs] at hq
          rcases hq with h1 | h1
          · subst h1; exact hr.1
          · subst h1; exact hr.2.2
      · by_cases hgate : r.pf < 1/20
        · rw [if_pos hgate] at h
          rcases hpp : pairProv (dropnaRows rows) with e2 | pht <;> try rw [hpp] at h
          · cases h
          · cases h
            simp [reportPs, itemPs] at hq
            rcases hq with h1 | h1 | h1
            · subst h1; exact hr.1
            · subst h1; exact hr.2.1
            · obtain ⟨a, b, hmem⟩ := h1
              exact hPair _ pht hpp (a, b, q) (mem_sortByLabel _ _ hmem)
        · rw [if_neg hgate] at h
          cases h
          simp [reportPs, itemPs] at hq
          rcases hq with h1 | h1
          · subst h1; exact hr.1
          · subst h1; exact hr.2.1

theorem c6aux_mann_whitney
    (p1 p2 : List ℚ → List ℚ → Except String (ℚ × ℚ)) (pdf : Pdf) (v g : String)
    (hNew : ∀ a b w, p1 a b = Except.ok w → 0 ≤ w.2 ∧ w.2 ≤ 1)
    (hOld : ∀ a b w, p2 a b = Except.ok w → 0 ≤ w.2 ∧ w.2 ≤ 1/2) :
    ∀ rep, (mann_whitney_test p1 p2 pdf v g).1 = Except.ok rep →
      ∀ q ∈ reportPs rep, 0 ≤ q ∧ q ≤ 1 := by
  intro rep h q hq
  unfold mann_whitney_test at h
  rcases hsp : splitIntoGroups pdf v g with _ | gs <;> rw [hsp] at h
  · cases h
  · dsimp only at h
    rcases hgg : gs.2 with _ | ⟨c1, _ | ⟨c2, _ | _⟩⟩ <;> rw [hgg] at h <;> dsimp only at h
    · cases h
    · cases h
    · rcases h1 : p1 (dropnaCol c1) (dropnaCol c2) with e | w <;> try rw [h1] at h
      · dsimp only at h
        rcases h2 : p2 (dropnaCol c1) (dropnaCol c2) with e2 | w2 <;> try rw [h2] at h
        · cases h
          simp [reportPs, itemPs] at hq
        · cases h
          simp [reportPs, itemPs] at hq
          subst hq
          have := hOld _ _ w2 h2
          constructor
          · linarith [this.1]
          · linarith [this.2]
      · cases h
        simp [reportPs, itemPs] at hq
        subst hq
        exact hNew _ _ w h1
    · cases h

theorem c6aux_kruskal
    (kProv : List (List ℚ) → Except String (ℚ × ℚ))
    (dProv : List (Cell × ℚ) → Except String (List (List ℚ))) (pdf : Pdf) (v g : String)
    (hK : ∀ a w, kProv a = Except.ok w → 0 ≤ w.2 ∧ w.2 ≤ 1)
    (hD : ∀ d tbl, dProv d = Except.ok tbl → ∀ row ∈ tbl, ∀ z ∈ row, 0 ≤ z ∧ z ≤ 1) :
    ∀ rep, (kruskal_wallis_test kProv dProv pdf v g).1 = Except.ok rep →
      ∀ q ∈ reportPs rep, 0 ≤ q ∧ q ≤ 1 := by
  intro rep h q hq
  unfold kruskal_wallis_test at h
  rcases hsp : splitIntoGroups pdf v g with _ | gs <;> rw [hsp] at h
  · cases h
  · dsimp only at h
    rcases hk : kProv (gs.2.map dropnaCol) with e | hp <;> try rw [hk] at h
    · cases h
      simp [reportPs, itemPs] at hq
    · dsimp only at h
      have hkk := hK _ hp hk
      rcases hvc : getCol pdf v with _ | vc <;> rw [hvc] at h
      · cases h
        simp [reportPs, itemPs] at hq
      · try dsimp only at h
        rcases hgc : getCol pdf g with _ | gc <;> try rw [hgc] at h
        · cases h
          simp [reportPs, itemPs] at hq
        · try dsimp only at h
          by_cases hps : hp.2 < 1/20
          · rw [if_pos hps] at h
            rcases hdn : dProv ((vc.zip gc).filterMap
                (fun p => p.2.map (fun z => (p.1, z)))) with e2 | tbl <;> try rw [hdn] at h
            · cases h
              simp [reportPs, itemPs] at hq
              subst hq
              exact hkk
            · cases h
              simp [reportPs, itemPs] at hq
              rcases hq with h1 | h1
              · subst h1
                exact hkk
              · obtain ⟨row, hrow, hz⟩ := h1
                exact hD _ tbl hdn row hrow q hz
          · rw [if_neg hps] at h
            cases h
            simp [reportPs, itemPs] at hq
            subst hq
            exact hkk

/-- C6 (amended): whenever every provider-returned p-value lies in [0, 1] and
the legacy Mann-Whitney provider returns a one-sided p-value at most 1/2,
every p-value included in any returned report lies in [0, 1]; the
Mann-Whitney fallback reports the doubled one-sided p-value, so without the
1/2 bound the reported value can exceed 1. -/
theorem c6_pvalues_in_unit :
    (∀ (prov : List ℚ → List ℚ → Except String (ℚ × ℚ)) (powerProv : ℕ → ℚ) (pdf : Pdf)
        (varNames : List String),
      (∀ x y v, prov x y = Except.ok v → 0 ≤ v.2 ∧ v.2 ≤ 1) →
      ∀ rep, (paired_t_test prov powerProv pdf varNames).1 = Except.ok rep →
        ∀ q ∈ reportPs rep, 0 ≤ q ∧ q ≤ 1) ∧
    (∀ (prov : List ℚ → List ℚ → Except String (ℚ × ℚ)) (pdf : Pdf)
        (varNames : List String),
      (∀ x y v, prov x y = Except.ok v → 0 ≤ v.2 ∧ v.2 ≤ 1) →
      ∀ rep, (paired_wilcox_test prov pdf varNames).1 = Except.ok rep →
        ∀ q ∈ reportPs rep, 0 ≤ q ∧ q ≤ 1) ∧
    (∀ (prov : List Cell → List Cell → Except String (ℚ × ℚ)) (pdf : Pdf)
        (varNames : List String),
      (∀ a b v, prov a b = Except.ok v → 0 ≤ v.2 ∧ v.2 ≤ 1) →
      ∀ rep, (mcnemar_test prov pdf varNames).1 = Except.ok rep →
        ∀ q ∈ reportPs rep, 0 ≤ q ∧ q ≤ 1) ∧
    (∀ (prov : List (List Cell) → Except String (ℚ × ℚ)) (pdf : Pdf)
        (varNames : List String),
      (∀ a v, prov a = Except.ok v → 0 ≤ v.2 ∧ v.2 ≤ 1) →
      ∀ rep, (cochran_q_test prov pdf varNames).1 = Except.ok rep →
        ∀ q ∈ reportPs rep, 0 ≤ q ∧ q ≤ 1) ∧
    (∀ (rmProv : List (List ℚ) → Except String RMNums)
        (pairProv : List (List ℚ) → Except String (List (PyStr × ℚ × ℚ)))
        (anovaRMProv : List LongRow → Except String (List (PyStr × ℚ × ℚ × ℚ × ℚ)))
        (pdf : Pdf) (varNames : List String),
      (∀ d r, rmProv d = Except.ok r →
        (0 ≤ r.pw ∧ r.pw ≤ 1) ∧ (0 ≤ r.pf ∧ r.pf ≤ 1) ∧ (0 ≤ r.pGG ∧ r.pGG ≤ 1)) →
      (∀ d rows, pairProv d = Except.ok rows → ∀ row ∈ rows, 0 ≤ row.2.2 ∧ row.2.2 ≤ 1) →
      ∀ rep, (repeated_measures_anova rmProv pairProv anovaRMProv pdf varNames []).1 =
          Except.ok rep →
        ∀ q ∈ reportPs rep, 0 ≤ q ∧ q ≤ 1) ∧
    (∀ (rmProv : List (List ℚ) → Except String RMNums)
        (pairProv : List (List ℚ) → Except String (List (PyStr × ℚ × ℚ)))
        (anovaRMProv : List LongRow → Except String (List (PyStr × ℚ × ℚ × ℚ × ℚ)))
        (pdf : Pdf) (varNames : List String) (factors : List (PyStr × ℕ)),
      factors ≠ [] →
      (∀ l tbl, anovaRMProv l = Except.ok tbl →
        ∀ row ∈ tbl, 0 ≤ row.2.2.2.2 ∧ row.2.2.2.2 ≤ 1) →
      ∀ rep, (repeated_measures_anova rmProv pairProv anovaRMProv pdf varNames factors).1 =
          Except.ok rep →
        ∀ q ∈ reportPs rep, 0 ≤ q ∧ q ≤ 1) ∧
    (∀ (prov : List (List ℚ) → Except String (ℚ × ℚ)) (pdf : Pdf) (varNames : List String),
      (∀ a v, prov a = Except.ok v → 0 ≤ v.2 ∧ v.2 ≤ 1) →
      ∀ rep, (friedman_test prov pdf varNames).1 = Except.ok rep →
        ∀ q ∈ reportPs rep, 0 ≤ q ∧ q ≤ 1) ∧
    (∀ (prov : List (List ℚ) → Except String (ℚ × ℚ)) (pdf : Pdf) (v g : String),
      (∀ a w, prov a = Except.ok w → 0 ≤ w.2 ∧ w.2 ≤ 1) →
      ∀ pr, (levene_test prov pdf v g).1 = Except.ok pr →
        ∀ q ∈ reportPs pr.2, 0 ≤ q ∧ q ≤ 1) ∧
    (∀ (prov : List ℚ → List ℚ → Except String (ℚ × ℚ × ℚ)) (tppf sqrtFn : ℚ → ℚ)
        (powerProv : ℕ → ℕ → ℚ) (pdf : Pdf) (v g : String),
      (∀ a b w, prov a b = Except.ok w → 0 ≤ w.2.1 ∧ w.2.1 ≤ 1) →
      ∀ rep, (independent_t_test prov tppf sqrtFn powerProv pdf v g).1 = Except.ok rep →
        ∀ q ∈ reportPs rep, 0 ≤ q ∧ q ≤ 1) ∧
    (∀ (modTProv : List Cell → List ℚ → Except SCErr (ℚ × ℚ × ℚ))
        (slopeProv : Option ℚ → Cell → Cell → List Cell → List Cell →
          Except String (ℚ × ℚ × ℚ × String))
        (pdf : Pdf) (v g : String) (seName : Option String) (nT : Option ℚ),
      (∀ a b w, modTProv a b = Except.ok w → 0 ≤ w.2.1 ∧ w.2.1 ≤ 1) →
      (∀ a b c d e w, slopeProv a b c d e = Except.ok w → 0 ≤ w.2.2.1 ∧ w.2.2.1 ≤ 1) →
      ∀ rep, (single_case_task_extremity modTProv slopeProv pdf v g seName nT).1 =
          Except.ok rep →
        ∀ q ∈ reportPs rep, 0 ≤ q ∧ q ≤ 1) ∧
    (∀ (prov : List ℚ → List ℚ → Except String (ℚ × ℚ)) (sqrtFn : ℚ → ℚ) (pdf : Pdf)
        (v g : String),
      (∀ a b w, prov a b = Except.ok w → 0 ≤ w.2 ∧ w.2 ≤ 1) →
      ∀ rep, (welch_t_test prov sqrtFn pdf v g).1 = Except.ok rep →
        ∀ q ∈ reportPs rep, 0 ≤ q ∧ q ≤ 1) ∧
    (∀ (p1 p2 : List ℚ → List ℚ → Except String (ℚ × ℚ)) (pdf : Pdf) (v g : String),
      (∀ a b w, p1 a b = Except.ok w → 0 ≤ w.2 ∧ w.2 ≤ 1) →
      (∀ a b w, p2 a b = Except.ok w → 0 ≤ w.2 ∧ w.2 ≤ 1/2) →
      ∀ rep, (mann_whitney_test p1 p2 pdf v g).1 = Except.ok rep →
        ∀ q ∈ reportPs rep, 0 ≤ q ∧ q ≤ 1) ∧
    (∀ (prov : List (ℚ × ℚ × ℚ) → Except String (List (ℚ × ℚ × ℚ))) (pdf : Pdf)
        (v : String) (gnames : List String),
      (∀ d tbl, prov d = Except.ok tbl → ∀ row ∈ tbl, 0 ≤ row.2.2 ∧ row.2.2 ≤ 1) →
      ∀ rep, (two_way_anova prov pdf v gnames).1 = Except.ok rep →
        ∀ q ∈ reportPs rep, 0 ≤ q ∧ q ≤ 1) ∧
    (∀ (kProv : List (List ℚ) → Except String (ℚ × ℚ))
        (dProv : List (Cell × ℚ) → Except String (List (List ℚ))) (pdf : Pdf) (v g : String),
      (∀ a w, kProv a = Except.ok w → 0 ≤ w.2 ∧ w.2 ≤ 1) →
      (∀ d tbl, dProv d = Except.ok tbl → ∀ row ∈ tbl, ∀ z ∈ row, 0 ≤ z ∧ z ≤ 1) →
      ∀ rep, (kruskal_wallis_test kProv dProv pdf v g).1 = Except.ok rep →
        ∀ q ∈ reportPs rep, 0 ≤ q ∧ q ≤ 1) :=
  ⟨c6aux_paired_t, c6aux_wilcox, c6aux_mcnemar, c6aux_cochran, c6aux_rm_oneway,
   fun rmProv pairProv anovaRMProv pdf varNames factors hfac hC =>
     c6aux_rm_multiway rmProv pairProv anovaRMProv pdf varNames factors hfac hC,
   c6aux_friedman, c6aux_levene, c6aux_independent_t, c6aux_single_case, c6aux_welch,
   c6aux_mann_whitney, c6aux_two_way, c6aux_kruskal⟩

/-- Witness for C6: the fallback doubling of a one-sided p of 2/5 is
reported as 4/5, inside [0, 1]. -/
theorem c6_pvalues_in_unit_witness : (0 : ℚ) ≤ 2/5 * 2 ∧ (2 : ℚ)/5 * 2 ≤ 1 :=
  c6_pvalues_in_unit.2.2.2.2.2.2.2.2.2.2.2.1
    (fun _ _ => Except.error "no keyword") (fun _ _ => Except.ok (9, 2/5))
    ⟨["v", "g"], [[some 1, some 10], [some 2, some 20]]⟩ "v" "g"
    (by intro a b w h; cases h)
    (by intro a b w h; cases h; norm_num)
    [Item.testRes "Mann-Whitney rank test" 9 [] none (2/5 * 2)] rfl
    (2/5 * 2) (by simp [reportPs, itemPs])

/-- Counterexample for C6 as stated: a legacy one-sided Mann-Whitney p of
3/5 (a value in [0, 1]) is reported as 3/5 * 2 = 6/5, which exceeds 1. -/
theorem c6_counterexample :
    (mann_whitney_test (fun _ _ => Except.error "no keyword")
        (fun _ _ => Except.ok (5, 3/5))
        ⟨["v", "g"], [[some 1, some 10], [some 2, some 20]]⟩ "v" "g").1 =
      Except.ok [Item.testRes "Mann-Whitney rank test" 5 [] none (3/5 * 2)] ∧
    ¬ ((3 : ℚ)/5 * 2 ≤ 1) := by
  refine ⟨rfl, by norm_num⟩
